import Mathlib

/-!
Shallow embedding of the Quasar consensus core (luxfi/consensus,
`src/pkg/rust/src/lib.rs`) together with proofs about its behaviour.

Modelling conventions, fixed once for the whole file:
* 32-byte identifiers (`ID` / `NodeID`) compare bytewise in the source, so
  they are modelled as `Nat`; the distinguished all-zero genesis id is `0`.
* Rust `HashMap` values are modelled as functions `Nat → Option α`; the
  source never iterates the maps on any path used by the claims, so only
  point lookups and point insertions matter.
* `f64` configuration ratios (`alpha`, `theta_min`, `theta_max`, ...) are
  modelled as exact rationals carrying the literal written in the source
  (for example `0.6` is `3/5`).  In every place the claims touch, the `f64`
  computation of the source agrees with exact rational arithmetic (in
  particular `0.6_f64 * 5.0 == 3.0` holds exactly in IEEE f64, so
  `alpha_count` of the testnet config is `3` in both readings).
* `u64` arithmetic in the FPC hash is modelled as `Nat` with explicit
  reduction `% 2^64` where the source wraps.
* `SystemTime` timestamps are opaque: votes and blocks carry them as plain
  `Nat` data, and `SystemTime::now()` in `create_certificate` is modelled
  as the constant `0` (no claim reads a certificate timestamp).
* Rust `Result<T>` is `Except ConsensusError T`; a method that mutates
  `&mut self` becomes a function returning the (result, new state) pair.
-/

namespace Quasar

/-- One 64-bit word modelled as a natural number below `2 ^ 64`. -/
def U64 : Nat := 2 ^ 64

/-- Wrapping addition of two u64 values (`u64::wrapping_add`). -/
def wadd (a b : Nat) : Nat := (a + b) % U64

/-- Left rotation of a u64 value by `r` bits (`u64::rotate_left`); for
`x < 2 ^ 64` this is exactly `(x << r | x >> (64 - r))`. -/
def rotl (x r : Nat) : Nat := (x * 2 ^ r + x / 2 ^ (64 - r)) % U64

/-- Little-endian byte list of a u64 value (`u64::to_le_bytes`). -/
def toLeBytes8 (x : Nat) : List Nat :=
  [x % 256, x / 256 % 256, x / 256 ^ 2 % 256, x / 256 ^ 3 % 256,
   x / 256 ^ 4 % 256, x / 256 ^ 5 % 256, x / 256 ^ 6 % 256, x / 256 ^ 7 % 256]

/-- Big-endian byte list of a u64 value (`u64::to_be_bytes`). -/
def toBeBytes8 (x : Nat) : List Nat :=
  [x / 256 ^ 7 % 256, x / 256 ^ 6 % 256, x / 256 ^ 5 % 256, x / 256 ^ 4 % 256,
   x / 256 ^ 3 % 256, x / 256 ^ 2 % 256, x / 256 % 256, x % 256]

/-- Read a little-endian byte list as a number (`u64::from_le_bytes`); a
list shorter than 8 bytes behaves as if padded with zero bytes, exactly as
the source pads its 8-byte block before `from_le_bytes`. -/
def fromLeBytes (l : List Nat) : Nat :=
  l.foldr (fun b acc => b + 256 * acc) 0

/-- Read a big-endian byte list as a number (`u64::from_be_bytes`). -/
def fromBeBytes (l : List Nat) : Nat :=
  l.foldl (fun acc b => acc * 256 + b) 0

/- ============= TYPES MODULE ============= -/

/-- Block status in consensus (`types::Status`). -/
inductive Status where
  | Unknown
  | Processing
  | Rejected
  | Accepted
deriving DecidableEq, Repr

/-- Consensus decision result (`types::Decision`). -/
inductive Decision where
  | Undecided
  | Accept
  | Reject
deriving DecidableEq, Repr

/-- Vote type for consensus (`types::VoteType`). -/
inductive VoteType where
  | Preference
  | Commit
  | Cancel
deriving DecidableEq, Repr

/-- Block in the blockchain (`types::Block`); ids are modelled as `Nat`,
the payload as a byte list, the timestamp as an opaque `Nat`. -/
structure Block where
  id : Nat
  parent_id : Nat
  height : Nat
  payload : List Nat
  timestamp : Nat
deriving DecidableEq, Repr

/-- The genesis block (`Block::genesis`): all-zero ids, height 0, empty
payload, epoch timestamp. -/
def Block.genesis : Block :=
  { id := 0, parent_id := 0, height := 0, payload := [], timestamp := 0 }

/-- Vote on a block (`types::Vote`). -/
structure Vote where
  block_id : Nat
  vote_type : VoteType
  voter : Nat
  signature : List Nat
  timestamp : Nat
deriving DecidableEq, Repr

/-- Whether a vote counts as a yes (`Vote::prefer`): Preference and Commit
count as prefer, Cancel as oppose. -/
def Vote.prefer (v : Vote) : Bool :=
  match v.vote_type with
  | VoteType.Preference => true
  | VoteType.Commit => true
  | VoteType.Cancel => false

/-- Consensus certificate with aggregated signatures (`types::Certificate`). -/
structure Certificate where
  block_id : Nat
  height : Nat
  signers : List Nat
  aggregated_sig : List Nat
  quantum_sigs : List (List Nat)
  timestamp : Nat
deriving DecidableEq, Repr

/-- Security level for post-quantum crypto (`types::SecurityLevel`). -/
inductive SecurityLevel where
  | Low
  | Medium
  | High
deriving DecidableEq, Repr

/-- Quasar consensus configuration (`types::QuasarConfig`); durations are
milliseconds, ratios are exact rationals. -/
structure QuasarConfig where
  k : Nat
  alpha : ℚ
  beta : Nat
  round_timeout : Nat
  enable_fpc : Bool
  theta_min : ℚ
  theta_max : ℚ
  fpc_seed : List Nat
  base_luminance : ℚ
  max_luminance : ℚ
  min_luminance : ℚ
  success_multiplier : ℚ
  failure_multiplier : ℚ
  network_timeout : Nat
  max_message_size : Nat
  max_outstanding : Nat
  security_level : SecurityLevel
  quantum_resistant : Bool
  gpu_acceleration : Bool
deriving DecidableEq, Repr

/-- The 32 ASCII bytes of the default FPC seed string
`lux-consensus-fpc-default-seed!!`. -/
def defaultSeedBytes : List Nat :=
  [108, 117, 120, 45, 99, 111, 110, 115, 101, 110, 115, 117, 115, 45, 102,
   112, 99, 45, 100, 101, 102, 97, 117, 108, 116, 45, 115, 101, 101, 100,
   33, 33]

/-- The 32 ASCII bytes of the testnet FPC seed string
`lux-testnet-fpc-seed-00000000000`. -/
def testnetSeedBytes : List Nat :=
  [108, 117, 120, 45, 116, 101, 115, 116, 110, 101, 116, 45, 102, 112, 99,
   45, 115, 101, 101, 100, 45, 48, 48, 48, 48, 48, 48, 48, 48, 48, 48, 48]

/-- The 32 ASCII bytes of the mainnet FPC seed string
`lux-mainnet-fpc-secure-seed-2025`. -/
def mainnetSeedBytes : List Nat :=
  [108, 117, 120, 45, 109, 97, 105, 110, 110, 101, 116, 45, 102, 112, 99,
   45, 115, 101, 99, 117, 114, 101, 45, 115, 101, 101, 100, 45, 50, 48, 50,
   53]

/-- Default configuration (`QuasarConfig::default`). -/
def QuasarConfig.default : QuasarConfig where
  k := 20
  alpha := 69 / 100
  beta := 20
  round_timeout := 100
  enable_fpc := true
  theta_min := 1 / 2
  theta_max := 4 / 5
  fpc_seed := defaultSeedBytes
  base_luminance := 100
  max_luminance := 1000
  min_luminance := 10
  success_multiplier := 11 / 10
  failure_multiplier := 9 / 10
  network_timeout := 5000
  max_message_size := 2 * 1024 * 1024
  max_outstanding := 10
  security_level := SecurityLevel.Medium
  quantum_resistant := true
  gpu_acceleration := true

/-- Testnet configuration (`QuasarConfig::testnet`): k=5, alpha=0.6,
beta=5, FPC disabled. -/
def QuasarConfig.testnet : QuasarConfig where
  k := 5
  alpha := 3 / 5
  beta := 5
  round_timeout := 50
  enable_fpc := false
  theta_min := 1 / 2
  theta_max := 7 / 10
  fpc_seed := testnetSeedBytes
  base_luminance := 100
  max_luminance := 500
  min_luminance := 20
  success_multiplier := 105 / 100
  failure_multiplier := 95 / 100
  network_timeout := 10000
  max_message_size := 1024 * 1024
  max_outstanding := 5
  security_level := SecurityLevel.Low
  quantum_resistant := false
  gpu_acceleration := false

/-- Mainnet configuration (`QuasarConfig::mainnet`): k=21, alpha=0.69,
beta=20, FPC enabled. -/
def QuasarConfig.mainnet : QuasarConfig where
  k := 21
  alpha := 69 / 100
  beta := 20
  round_timeout := 100
  enable_fpc := true
  theta_min := 1 / 2
  theta_max := 4 / 5
  fpc_seed := mainnetSeedBytes
  base_luminance := 100
  max_luminance := 1000
  min_luminance := 10
  success_multiplier := 11 / 10
  failure_multiplier := 9 / 10
  network_timeout := 5000
  max_message_size := 2 * 1024 * 1024
  max_outstanding := 10
  security_level := SecurityLevel.High
  quantum_resistant := true
  gpu_acceleration := true

/-- Alpha threshold as an integer count (`QuasarConfig::alpha_count`):
`ceil(alpha * k)`. -/
def QuasarConfig.alpha_count (c : QuasarConfig) : Nat :=
  (Int.ceil (c.alpha * (c.k : ℚ))).toNat

/- ============= ERRORS MODULE ============= -/

/-- Consensus error type (`errors::ConsensusError`). -/
inductive ConsensusError where
  | BlockNotFound
  | InvalidBlock
  | InvalidVote
  | InvalidSignature
  | NoQuorum
  | AlreadyVoted
  | NotValidator
  | Timeout
  | NotInitialized
  | AlreadyStarted
  | CryptoError (msg : String)
  | NetworkError (msg : String)
  | Other (msg : String)
deriving DecidableEq, Repr

/- ============= FPC MODULE - Fast Probabilistic Consensus ============= -/

/-- FPC threshold selector (`fpc::FpcSelector`): theta bounds plus a
32-byte PRF seed. -/
structure FpcSelector where
  theta_min : ℚ
  theta_max : ℚ
  seed : List Nat
deriving DecidableEq, Repr

/-- Create a new FPC selector (`FpcSelector::new`): `theta_min` is kept
when `0 < theta_min < 1`, else clamped to `0.5`; then `theta_max` is kept
when `theta_min < theta_max ≤ 1` (against the already-clamped minimum),
else clamped to `0.8`. -/
def FpcSelector.new (theta_min theta_max : ℚ) (seed : List Nat) : FpcSelector :=
  let tmin := if 0 < theta_min ∧ theta_min < 1 then theta_min else 1 / 2
  let tmax := if tmin < theta_max ∧ theta_max ≤ 1 then theta_max else 4 / 5
  { theta_min := tmin, theta_max := tmax, seed := seed }

/-- Internal mixing state of the simple hash: four u64 words. -/
structure HState where
  v0 : Nat
  v1 : Nat
  v2 : Nat
  v3 : Nat
deriving DecidableEq, Repr

/-- One round of the SipHash-like mixing loop of
`FpcSelector::simple_hash` (the body run twice per chunk and four times in
finalisation). -/
def sipRound (s : HState) : HState :=
  let a0 := wadd s.v0 s.v1
  let a1 := Nat.xor (rotl s.v1 13) a0
  let b0 := rotl a0 32
  let a2 := wadd s.v2 s.v3
  let a3 := Nat.xor (rotl s.v3 16) a2
  let c0 := wadd b0 a3
  let c3 := Nat.xor (rotl a3 21) c0
  let b2 := wadd a2 a1
  let b1 := Nat.xor (rotl a1 17) b2
  let c2 := rotl b2 32
  { v0 := c0, v1 := b1, v2 := c2, v3 := c3 }

/-- Absorb one 8-byte chunk into the state: xor into `v3`, two mixing
rounds, xor into `v0` (the chunk loop body of `simple_hash`). -/
def absorbChunk (s : HState) (m : Nat) : HState :=
  let s := { s with v3 := Nat.xor s.v3 m }
  let s := sipRound (sipRound s)
  { s with v0 := Nat.xor s.v0 m }

/-- Absorb a byte list chunk by chunk, 8 bytes at a time, zero-padding the
final chunk (`for chunk in input.chunks(8)` in `simple_hash`). -/
def absorbBytes (s : HState) (l : List Nat) : HState :=
  match l with
  | [] => s
  | b :: rest =>
    absorbBytes (absorbChunk s (fromLeBytes (b :: rest.take 7))) (rest.drop 7)
termination_by l.length
decreasing_by
  simp only [List.length_drop, List.length_cons]
  omega

/-- Simple hash function of the FPC selector (`FpcSelector::simple_hash`):
SipHash-like mixing over 8-byte chunks, finalised with `v2 ^= 0xff` and
four extra rounds; output is the 32 bytes of the four state words in
little-endian order. -/
def simple_hash (input : List Nat) : List Nat :=
  let s : HState :=
    { v0 := 0x736f6d6570736575, v1 := 0x646f72616e646f6d,
      v2 := 0x6c7967656e657261, v3 := 0x7465646279746573 }
  let s := absorbBytes s input
  let s := { s with v2 := Nat.xor s.v2 0xff }
  let s := sipRound (sipRound (sipRound (sipRound s)))
  toLeBytes8 s.v0 ++ toLeBytes8 s.v1 ++ toLeBytes8 s.v2 ++ toLeBytes8 s.v3

/-- Compute theta for a phase (`FpcSelector::compute_theta`): hash the
seed concatenated with the big-endian phase, read the first 8 output bytes
big-endian, normalise by `u64::MAX` and scale into the configured range. -/
def FpcSelector.compute_theta (s : FpcSelector) (phase : Nat) : ℚ :=
  let input := s.seed ++ toBeBytes8 phase
  let hash := simple_hash input
  let hash_u64 := fromBeBytes (hash.take 8)
  let normalized : ℚ := (hash_u64 : ℚ) / ((U64 - 1 : Nat) : ℚ)
  s.theta_min + normalized * (s.theta_max - s.theta_min)

/-- Raw theta value for a phase (`FpcSelector::theta`). -/
def FpcSelector.theta (s : FpcSelector) (phase : Nat) : ℚ :=
  s.compute_theta phase

/-- Select the integer threshold for a phase and committee size
(`FpcSelector::select_threshold`): `ceil(theta * k)`. -/
def FpcSelector.select_threshold (s : FpcSelector) (phase : Nat) (k : Nat) : Nat :=
  (Int.ceil (s.compute_theta phase * (k : ℚ))).toNat

/-- Configured range of the selector (`FpcSelector::range`). -/
def FpcSelector.range (s : FpcSelector) : ℚ × ℚ :=
  (s.theta_min, s.theta_max)

/- ============= WAVE MODULE - Threshold Voting Protocol ============= -/

/-- Point update of a map modelled as a function (`HashMap::insert`). -/
def mapInsert {α : Type} (m : Nat → Option α) (k : Nat) (v : α) : Nat → Option α :=
  fun i => if i = k then some v else m i

/-- Point removal from a map modelled as a function (`HashMap::remove`). -/
def mapRemove {α : Type} (m : Nat → Option α) (k : Nat) : Nat → Option α :=
  fun i => if i = k then none else m i

/-- Wave state for a single block (`wave::WaveState`). -/
structure WaveState where
  votes : List Vote
  yes_count : Nat
  no_count : Nat
  preference : Bool
  confidence : Nat
  decided : Bool
  decision : Decision
deriving DecidableEq, Repr

/-- Default wave state (`WaveState::default`): empty ledger, undecided. -/
def WaveState.default : WaveState where
  votes := []
  yes_count := 0
  no_count := 0
  preference := false
  confidence := 0
  decided := false
  decision := Decision.Undecided

/-- Wave consensus engine with FPC support (`wave::Wave`). -/
structure Wave where
  config : QuasarConfig
  fpc : Option FpcSelector
  phase : Nat
  states : Nat → Option WaveState

/-- Create a new Wave instance (`Wave::new`): the FPC selector is present
exactly when the config enables FPC. -/
def Wave.new (config : QuasarConfig) : Wave where
  config := config
  fpc :=
    if config.enable_fpc then
      some (FpcSelector.new config.theta_min config.theta_max config.fpc_seed)
    else
      none
  phase := 0
  states := fun _ => none

/-- Get or create the state for a block (`Wave::get_or_create_state`):
returns the stored state when present, otherwise inserts and returns the
default state. -/
def Wave.get_or_create_state (w : Wave) (block_id : Nat) : WaveState × Wave :=
  match w.states block_id with
  | some s => (s, w)
  | none =>
    (WaveState.default,
     { w with states := mapInsert w.states block_id WaveState.default })

/-- Current threshold (`Wave::get_threshold`): with FPC enabled the phase
counter advances first and the selector is consulted at the new phase;
otherwise the fixed `ceil(alpha * k)` is used. -/
def Wave.get_threshold (w : Wave) : Nat × Wave :=
  match w.fpc with
  | some fpc =>
    let phase := w.phase + 1
    (fpc.select_threshold phase w.config.k, { w with phase := phase })
  | none => (w.config.alpha_count, w)

/-- Consensus check for a block (`Wave::check_consensus`): the threshold
is drawn first (advancing the FPC phase even when the block is missing or
decided), then the per-round quorum and the β-consecutive-round finality
rule are applied.  Returns whether a decision was just reached. -/
def Wave.check_consensus (w : Wave) (block_id : Nat) : Bool × Wave :=
  let tw := w.get_threshold
  let threshold := tw.1
  let w := tw.2
  match w.states block_id with
  | none => (false, w)
  | some state =>
    if state.decided then (false, w)
    else
      let total := state.yes_count + state.no_count
      if total < w.config.k then (false, w)
      else
        let state :=
          if threshold ≤ state.yes_count then
            if state.preference then
              { state with confidence := state.confidence + 1 }
            else
              { state with preference := true, confidence := 1 }
          else if threshold ≤ state.no_count then
            if state.preference then
              { state with preference := false, confidence := 1 }
            else
              { state with confidence := state.confidence + 1 }
          else
            { state with confidence := 0 }
        if w.config.beta ≤ state.confidence then
          let state :=
            { state with
              decided := true,
              decision :=
                if state.preference then Decision.Accept else Decision.Reject }
          (true, { w with states := mapInsert w.states block_id state })
        else
          (false, { w with states := mapInsert w.states block_id state })

/-- Record a vote and check for consensus (`Wave::record_vote`): a decided
block and a duplicate voter are silently dropped (the entry API still
materialises a default state for an unknown block); otherwise the vote is
counted, appended, and the consensus check runs.  Returns whether a
decision was just reached. -/
def Wave.record_vote (w : Wave) (vote : Vote) : Bool × Wave :=
  let block_id := vote.block_id
  let state := (w.states block_id).getD WaveState.default
  let w := { w with states := mapInsert w.states block_id state }
  if state.decided then (false, w)
  else if state.votes.any (fun v => v.voter = vote.voter) then (false, w)
  else
    let state :=
      if vote.prefer then { state with yes_count := state.yes_count + 1 }
      else { state with no_count := state.no_count + 1 }
    let state := { state with votes := state.votes ++ [vote] }
    let w := { w with states := mapInsert w.states block_id state }
    w.check_consensus block_id

/-- State lookup for a block (`Wave::state`). -/
def Wave.state (w : Wave) (block_id : Nat) : Option WaveState :=
  w.states block_id

/-- Whether a block is decided (`Wave::is_decided`). -/
def Wave.is_decided (w : Wave) (block_id : Nat) : Bool :=
  match w.states block_id with
  | some s => s.decided
  | none => false

/-- Decision for a block (`Wave::decision`). -/
def Wave.decision (w : Wave) (block_id : Nat) : Decision :=
  match w.states block_id with
  | some s => s.decision
  | none => Decision.Undecided

/-- Drop the state for a block (`Wave::reset`). -/
def Wave.reset (w : Wave) (block_id : Nat) : Wave :=
  { w with states := mapRemove w.states block_id }

/- ============= QUASAR MODULE - Post-Quantum Finality ============= -/

/-- Validator in the Quasar consensus (`quasar::Validator`). -/
structure Validator where
  id : Nat
  weight : Nat
  active : Bool
deriving DecidableEq, Repr

/-- Quasar hybrid consensus (`quasar::QuasarConsensus`): validator map,
integer threshold, security level, finalized-certificate map. -/
structure QuasarConsensus where
  validators : Nat → Option Validator
  threshold : Nat
  security_level : SecurityLevel
  finalized : Nat → Option Certificate

/-- Create a new Quasar consensus (`QuasarConsensus::new`): threshold is
`ceil(alpha * k)` of the config. -/
def QuasarConsensus.new (config : QuasarConfig) : QuasarConsensus where
  validators := fun _ => none
  threshold := config.alpha_count
  security_level := config.security_level
  finalized := fun _ => none

/-- Register a validator (`QuasarConsensus::add_validator`). -/
def QuasarConsensus.add_validator (q : QuasarConsensus) (id : Nat) (weight : Nat) :
    QuasarConsensus :=
  { q with
    validators :=
      mapInsert q.validators id { id := id, weight := weight, active := true } }

/-- Placeholder BLS aggregation (`QuasarConsensus::aggregate_bls_signatures`):
48 zero bytes. -/
def aggregate_bls_signatures (_votes : List Vote) : List Nat :=
  List.replicate 48 0

/-- Placeholder ML-DSA collection (`QuasarConsensus::collect_quantum_signatures`):
the signature bytes of every vote. -/
def collect_quantum_signatures (votes : List Vote) : List (List Nat) :=
  votes.map (fun v => v.signature)

/-- Create a certificate from votes (`QuasarConsensus::create_certificate`):
fail with `NoQuorum` when the raw vote list is below threshold; collect as
signers the voters of the votes whose voter is a registered validator (no
deduplication); fail with `NoQuorum` when the signer list is below
threshold; otherwise record and return the certificate. -/
def QuasarConsensus.create_certificate (q : QuasarConsensus) (block_id : Nat)
    (height : Nat) (votes : List Vote) :
    Except ConsensusError Certificate × QuasarConsensus :=
  if votes.length < q.threshold then (Except.error ConsensusError.NoQuorum, q)
  else
    let signers :=
      (votes.filter (fun v => (q.validators v.voter).isSome)).map
        (fun v => v.voter)
    if signers.length < q.threshold then
      (Except.error ConsensusError.NoQuorum, q)
    else
      let cert : Certificate :=
        { block_id := block_id
          height := height
          signers := signers
          aggregated_sig := aggregate_bls_signatures votes
          quantum_sigs := collect_quantum_signatures votes
          timestamp := 0 }
      (Except.ok cert, { q with finalized := mapInsert q.finalized block_id cert })

/-- Verify a certificate (`QuasarConsensus::verify_certificate`): at least
threshold signers, every signer a current validator; cryptographic checks
are delegated and modelled as passing. -/
def QuasarConsensus.verify_certificate (q : QuasarConsensus) (cert : Certificate) :
    Bool :=
  if cert.signers.length < q.threshold then false
  else cert.signers.all (fun signer => (q.validators signer).isSome)

/- ============= ENGINE MODULE - Complete Consensus Engine ============= -/

/-- Complete Quasar consensus engine (`engine::QuasarEngine`). -/
structure QuasarEngine where
  config : QuasarConfig
  wave : Wave
  quasar : QuasarConsensus
  blocks : Nat → Option Block
  status : Nat → Option Status
  started : Bool
  height : Nat

/-- Create a new engine (`QuasarEngine::new`): fresh Wave and Quasar over
the config, empty maps, not started, height 0. -/
def QuasarEngine.new (config : QuasarConfig) : QuasarEngine where
  config := config
  wave := Wave.new config
  quasar := QuasarConsensus.new config
  blocks := fun _ => none
  status := fun _ => none
  started := false
  height := 0

/-- Register a validator on the engine (`QuasarEngine::add_validator`). -/
def QuasarEngine.add_validator (e : QuasarEngine) (id : Nat) (weight : Nat) :
    QuasarEngine :=
  { e with quasar := e.quasar.add_validator id weight }

/-- Status lookup (`Engine::get_status` for `QuasarEngine`): `Unknown` for
unseen ids. -/
def QuasarEngine.get_status (e : QuasarEngine) (id : Nat) : Status :=
  (e.status id).getD Status.Unknown

/-- Acceptance query (`Engine::is_accepted` for `QuasarEngine`). -/
def QuasarEngine.is_accepted (e : QuasarEngine) (id : Nat) : Bool :=
  match e.status id with
  | some s => s = Status.Accepted
  | none => false

/-- Accept a block (`QuasarEngine::accept_block`): set status `Accepted`,
raise the height watermark when the stored block is strictly higher, then
attempt certificate creation from the Wave vote ledger (the result is
discarded; only the finalized map of Quasar may change). -/
def QuasarEngine.accept_block (e : QuasarEngine) (block_id : Nat) : QuasarEngine :=
  let e := { e with status := mapInsert e.status block_id Status.Accepted }
  let e :=
    match e.blocks block_id with
    | some block =>
      if e.height < block.height then { e with height := block.height } else e
    | none => e
  match e.wave.state block_id with
  | some state =>
    match e.blocks block_id with
    | some block =>
      let cq := e.quasar.create_certificate block_id block.height state.votes
      { e with quasar := cq.2 }
    | none => e
  | none => e

/-- Add a block (`Engine::add` for `QuasarEngine`): requires `started`;
overwrites the block map entry, sets status `Processing`, and initialises
(or keeps) the Wave state for the id. -/
def QuasarEngine.add (e : QuasarEngine) (block : Block) :
    Except ConsensusError Unit × QuasarEngine :=
  if ¬e.started then (Except.error ConsensusError.NotInitialized, e)
  else
    let id := block.id
    let e := { e with blocks := mapInsert e.blocks id block }
    let e := { e with status := mapInsert e.status id Status.Processing }
    let e := { e with wave := (e.wave.get_or_create_state id).2 }
    (Except.ok (), e)

/-- Record a vote (`Engine::record_vote` for `QuasarEngine`): requires
`started` and a known block id; delegates to Wave; on a just-decided event
updates the status map (and mints a certificate on accept). -/
def QuasarEngine.record_vote (e : QuasarEngine) (vote : Vote) :
    Except ConsensusError Unit × QuasarEngine :=
  if ¬e.started then (Except.error ConsensusError.NotInitialized, e)
  else if (e.blocks vote.block_id).isNone then
    (Except.error ConsensusError.BlockNotFound, e)
  else
    let block_id := vote.block_id
    let dw := e.wave.record_vote vote
    let decided := dw.1
    let e := { e with wave := dw.2 }
    if decided then
      match e.wave.decision block_id with
      | Decision.Accept => (Except.ok (), e.accept_block block_id)
      | Decision.Reject =>
        (Except.ok (),
         { e with status := mapInsert e.status block_id Status.Rejected })
      | Decision.Undecided => (Except.ok (), e)
    else
      (Except.ok (), e)

/-- Batched vote ingestion (`Engine::record_votes_batch` for
`QuasarEngine`): iterates `record_vote` over the list, counting the calls
that succeed; per-item failures are swallowed. -/
def QuasarEngine.record_votes_batch (e : QuasarEngine) (votes : List Vote) :
    Nat × QuasarEngine :=
  votes.foldl
    (fun acc vote =>
      let re := acc.2.record_vote vote
      (acc.1 + (match re.1 with | Except.ok _ => 1 | Except.error _ => 0), re.2))
    (0, e)

/-- Start the engine (`Engine::start` for `QuasarEngine`): fails with
`AlreadyStarted` on a started engine (before touching any state);
otherwise inserts the genesis block with status `Accepted` and flips the
started flag. -/
def QuasarEngine.start (e : QuasarEngine) :
    Except ConsensusError Unit × QuasarEngine :=
  if e.started then (Except.error ConsensusError.AlreadyStarted, e)
  else
    let genesis := Block.genesis
    let e := { e with blocks := mapInsert e.blocks genesis.id genesis }
    let e := { e with status := mapInsert e.status genesis.id Status.Accepted }
    (Except.ok (), { e with started := true })

/-- Stop the engine (`Engine::stop` for `QuasarEngine`): clears the
started flag, preserving all other state. -/
def QuasarEngine.stop (e : QuasarEngine) :
    Except ConsensusError Unit × QuasarEngine :=
  (Except.ok (), { e with started := false })

/- ============= OPERATION SEMANTICS ============= -/

/-- One external engine operation, as dispatched by a caller of the
`Engine` trait plus validator registration. -/
inductive Op where
  | start
  | stop
  | addValidator (id : Nat) (weight : Nat)
  | add (block : Block)
  | recordVote (vote : Vote)
  | recordBatch (votes : List Vote)

/-- Apply one operation to the engine, discarding the returned
result/count exactly as an outside observer of the state would. -/
def stepOp (e : QuasarEngine) : Op → QuasarEngine
  | Op.start => e.start.2
  | Op.stop => e.stop.2
  | Op.addValidator id w => e.add_validator id w
  | Op.add b => (e.add b).2
  | Op.recordVote v => (e.record_vote v).2
  | Op.recordBatch vs => (e.record_votes_batch vs).2

/-- Run a list of operations in order. -/
def runOps (e : QuasarEngine) (ops : List Op) : QuasarEngine :=
  ops.foldl stepOp e

/- ============= SPEC-SIDE AND AUXILIARY DEFINITIONS ============= -/

/-- Sequential ingestion as worded by the spec: call `record_vote` on each
element of the list in order, swallow per-item errors, and return how many
calls succeed together with the final engine state.  This is the
refinement target that `record_votes_batch` is compared against. -/
def sequentialIngest (e : QuasarEngine) : List Vote → Nat × QuasarEngine
  | [] => (0, e)
  | v :: vs =>
    let re := e.record_vote v
    let rest := sequentialIngest re.2 vs
    ((match re.1 with | Except.ok _ => 1 | Except.error _ => 0) + rest.1, rest.2)

/-- One Wave-level mutation: a recorded vote or a standalone consensus
check. -/
inductive WaveOp where
  | recordVote (vote : Vote)
  | check (block_id : Nat)

/-- Apply one Wave-level mutation, discarding the returned flag. -/
def stepWave (w : Wave) : WaveOp → Wave
  | WaveOp.recordVote v => (w.record_vote v).2
  | WaveOp.check id => (w.check_consensus id).2

/-- Run a list of Wave-level mutations in order. -/
def runWave (w : Wave) (ops : List WaveOp) : Wave :=
  ops.foldl stepWave w

/-- Similarity of votes: equal in every field the core reads (block id,
vote type, voter), free in signature and timestamp. -/
def voteSim (v w : Vote) : Prop :=
  v.block_id = w.block_id ∧ v.vote_type = w.vote_type ∧ v.voter = w.voter

/-- Similarity of certificates: equal except possibly in the opaque
post-quantum signature bytes. -/
def certSim (c d : Certificate) : Prop :=
  c.block_id = d.block_id ∧ c.height = d.height ∧ c.signers = d.signers ∧
  c.aggregated_sig = d.aggregated_sig ∧ c.timestamp = d.timestamp

/-- Lift a relation to optional values: both absent, or both present and
related. -/
def optRel {α : Type} (r : α → α → Prop) : Option α → Option α → Prop
  | none, none => True
  | some a, some b => r a b
  | _, _ => False

/-- Similarity of Wave block states: vote ledgers pointwise similar, all
counters and flags equal. -/
def wsSim (s t : WaveState) : Prop :=
  List.Forall₂ voteSim s.votes t.votes ∧ s.yes_count = t.yes_count ∧
  s.no_count = t.no_count ∧ s.preference = t.preference ∧
  s.confidence = t.confidence ∧ s.decided = t.decided ∧ s.decision = t.decision

/-- Similarity of Wave instances: identical config, selector and phase,
pointwise similar block states. -/
def waveSim (w x : Wave) : Prop :=
  w.config = x.config ∧ w.fpc = x.fpc ∧ w.phase = x.phase ∧
  ∀ id, optRel wsSim (w.states id) (x.states id)

/-- Similarity of Quasar certifiers: identical validators and threshold,
pointwise similar certificates. -/
def quasarSim (q r : QuasarConsensus) : Prop :=
  q.validators = r.validators ∧ q.threshold = r.threshold ∧
  q.security_level = r.security_level ∧
  ∀ id, optRel certSim (q.finalized id) (r.finalized id)

/-- Similarity of engines: everything observable equal, Wave and Quasar
states similar. -/
def engineSim (e f : QuasarEngine) : Prop :=
  e.config = f.config ∧ waveSim e.wave f.wave ∧ quasarSim e.quasar f.quasar ∧
  e.blocks = f.blocks ∧ e.status = f.status ∧ e.started = f.started ∧
  e.height = f.height

/-- Similarity of operations: identical except that corresponding votes
may differ in signature and timestamp. -/
def opSim : Op → Op → Prop
  | Op.start, Op.start => True
  | Op.stop, Op.stop => True
  | Op.addValidator i v, Op.addValidator j w => i = j ∧ v = w
  | Op.add b, Op.add c => b = c
  | Op.recordVote v, Op.recordVote w => voteSim v w
  | Op.recordBatch vs, Op.recordBatch ws => List.Forall₂ voteSim vs ws
  | _, _ => False

/- ============= CONCRETE OBJECTS FOR WITNESSES ============= -/

/-- Build a vote with empty signature and zero timestamp. -/
def mkVote (bid voter : Nat) (t : VoteType) : Vote :=
  { block_id := bid, vote_type := t, voter := voter, signature := [],
    timestamp := 0 }

/-- Concrete non-genesis block `B` (id 1, parent genesis, height 1). -/
def c1Block : Block :=
  { id := 1, parent_id := 0, height := 1, payload := [], timestamp := 0 }

/-- The engine of the spec scenario `Duplicate voter ignored`: testnet
config, started, block `B` added, a Preference vote from voter 100
recorded twice, then Preference votes from the fresh voters 101-104. -/
def c1Engine : QuasarEngine :=
  let e := (QuasarEngine.new QuasarConfig.testnet).start.2
  let e := (e.add c1Block).2
  let e := (e.record_vote (mkVote 1 100 VoteType.Preference)).2
  let e := (e.record_vote (mkVote 1 100 VoteType.Preference)).2
  let e := (e.record_vote (mkVote 1 101 VoteType.Preference)).2
  let e := (e.record_vote (mkVote 1 102 VoteType.Preference)).2
  let e := (e.record_vote (mkVote 1 103 VoteType.Preference)).2
  (e.record_vote (mkVote 1 104 VoteType.Preference)).2

/-- Quasar certifier over the testnet config (threshold 3) with the single
registered validator 1. -/
def c3Quasar : QuasarConsensus :=
  (QuasarConsensus.new QuasarConfig.testnet).add_validator 1 1

/-- Three votes for block 5 all cast by validator 1 (distinct timestamps,
same voter). -/
def c3Votes : List Vote :=
  [{ block_id := 5, vote_type := VoteType.Preference, voter := 1,
     signature := [], timestamp := 0 },
   { block_id := 5, vote_type := VoteType.Preference, voter := 1,
     signature := [], timestamp := 1 },
   { block_id := 5, vote_type := VoteType.Commit, voter := 1,
     signature := [], timestamp := 2 }]

/-- The certificate the source mints from `c3Votes` under `c3Quasar`:
three copies of validator 1 as signers. -/
def c3Cert : Certificate :=
  { block_id := 5
    height := 1
    signers := [1, 1, 1]
    aggregated_sig := List.replicate 48 0
    quantum_sigs := [[], [], []]
    timestamp := 0 }

/-- A Wave state that has already decided Accept. -/
def decidedAcceptState : WaveState :=
  { votes := [mkVote 1 10 VoteType.Preference]
    yes_count := 1
    no_count := 0
    preference := true
    confidence := 5
    decided := true
    decision := Decision.Accept }

/-- A Wave over the testnet config holding a decided state for block 1. -/
def c2Wave : Wave :=
  { config := QuasarConfig.testnet
    fpc := none
    phase := 0
    states := fun i => if i = 1 then some decidedAcceptState else none }

/-- A started engine over the testnet config with empty maps. -/
def c4Engine : QuasarEngine :=
  { config := QuasarConfig.testnet
    wave := Wave.new QuasarConfig.testnet
    quasar := QuasarConsensus.new QuasarConfig.testnet
    blocks := fun _ => none
    status := fun _ => none
    started := true
    height := 0 }

/-- A Wave state for block 1 that is one successful round short of
finality under the testnet config: four yes votes, confidence 4. -/
def c6State : WaveState :=
  { votes := [mkVote 1 10 VoteType.Preference, mkVote 1 11 VoteType.Preference,
              mkVote 1 12 VoteType.Preference, mkVote 1 13 VoteType.Preference]
    yes_count := 4
    no_count := 0
    preference := true
    confidence := 4
    decided := false
    decision := Decision.Undecided }

/-- A block of height 7 with id 1. -/
def c6Block : Block :=
  { id := 1, parent_id := 0, height := 7, payload := [], timestamp := 0 }

/-- A started testnet engine processing block 1 (height 7) whose Wave
state is one round short of accepting it; the height watermark is 0. -/
def c6Engine : QuasarEngine :=
  { config := QuasarConfig.testnet
    wave :=
      { config := QuasarConfig.testnet
        fpc := none
        phase := 0
        states := fun i => if i = 1 then some c6State else none }
    quasar := QuasarConsensus.new QuasarConfig.testnet
    blocks := fun i => if i = 1 then some c6Block else none
    status := fun i => if i = 1 then some Status.Processing else none
    started := true
    height := 0 }

/-- The fifth distinct Preference vote for block 1, which pushes
`c6Engine` over the finality bar. -/
def c6Vote : Vote := mkVote 1 14 VoteType.Preference

/-- A started testnet engine in which block 1 is already Accepted and its
Wave state is decided. -/
def c10Engine : QuasarEngine :=
  { config := QuasarConfig.testnet
    wave :=
      { config := QuasarConfig.testnet
        fpc := none
        phase := 0
        states := fun i => if i = 1 then some decidedAcceptState else none }
    quasar := QuasarConsensus.new QuasarConfig.testnet
    blocks := fun i => if i = 1 then some c1Block else none
    status := fun i => if i = 1 then some Status.Accepted else none
    started := true
    height := 1 }

/-- A vote for block 1 by voter 10 with empty signature and timestamp 0. -/
def c9Vote1 : Vote := mkVote 1 10 VoteType.Preference

/-- The same vote as `c9Vote1` except for signature and timestamp. -/
def c9Vote2 : Vote :=
  { block_id := 1, vote_type := VoteType.Preference, voter := 10,
    signature := [7, 7], timestamp := 42 }

/-- First operation sequence for the signature-obliviousness witness. -/
def c9Ops1 : List Op := [Op.start, Op.add c1Block, Op.recordVote c9Vote1]

/-- Second operation sequence: identical except for the signature and
timestamp of the vote. -/
def c9Ops2 : List Op := [Op.start, Op.add c1Block, Op.recordVote c9Vote2]

/- ============= THEOREMS ============= -/

/-- The testnet quorum count: `ceil(0.6 * 5) = 3`. -/
theorem testnet_alpha_count_eq : QuasarConfig.testnet.alpha_count = 3 := by
  have h : Int.ceil ((3 : ℚ) / 5 * 5) = 3 := by norm_num
  simp [QuasarConfig.alpha_count, QuasarConfig.testnet, h]

/-- C4: calling `start()` on an engine that is already started returns the
`AlreadyStarted` error and returns the engine completely unchanged (the
error is raised before any state is touched). -/
theorem c4_start_already_started (e : QuasarEngine) (h : e.started = true) :
    e.start = (Except.error ConsensusError.AlreadyStarted, e) := by
  simp [QuasarEngine.start, h]

/-- Witness for C4: a concrete started engine, on which `start` fails with
`AlreadyStarted` and leaves every component of the state unchanged. -/
theorem c4_start_already_started_witness :
    c4Engine.started = true ∧
    c4Engine.start = (Except.error ConsensusError.AlreadyStarted, c4Engine) :=
  ⟨rfl, c4_start_already_started c4Engine rfl⟩

/-- C5: `record_votes_batch` never fails (it is total and returns a plain
count), and it is extensionally the sequential ingestion of the spec: the
final engine state equals the one obtained by calling `record_vote` on
each vote in order swallowing per-item errors, and the returned number is
the number of those calls that succeed. -/
theorem c5_batch_equals_sequential (e : QuasarEngine) (vs : List Vote) :
    e.record_votes_batch vs = sequentialIngest e vs := by
  have h : ∀ (vs : List Vote) (e : QuasarEngine) (n : Nat),
      List.foldl
        (fun acc vote =>
          let re := acc.2.record_vote vote
          (acc.1 + (match re.1 with | Except.ok _ => 1 | Except.error _ => 0),
           re.2))
        (n, e) vs
        = (n + (sequentialIngest e vs).1, (sequentialIngest e vs).2) := by
    intro vs
    induction vs with
    | nil => intro e n; simp [sequentialIngest]
    | cons v vs ih =>
      intro e n
      simp only [List.foldl_cons]
      rw [ih]
      simp [sequentialIngest, Nat.add_assoc]
  have h0 := h vs e 0
  simpa [QuasarEngine.record_votes_batch] using h0

/-- The phase bump of `get_threshold` never changes the state map. -/
theorem get_threshold_states (w : Wave) : (w.get_threshold).2.states = w.states := by
  cases h : w.fpc <;> simp [Wave.get_threshold, h]

/-- A consensus check for block `i` leaves the state of any other block
untouched. -/
theorem check_consensus_states_other (w : Wave) (i j : Nat) (h : j ≠ i) :
    (w.check_consensus i).2.states j = w.states j := by
  have hts : ∀ x, (w.get_threshold).2.states x = w.states x := by
    intro x; rw [get_threshold_states]
  cases hw : w.states i with
  | none => simp [Wave.check_consensus, hts, hw]
  | some s =>
    simp only [Wave.check_consensus, hts, hw]
    split_ifs <;> simp [mapInsert, h, hts]

/-- Recording a vote for one block leaves the state of any other block
untouched. -/
theorem record_vote_states_other (w : Wave) (v : Vote) (j : Nat)
    (h : j ≠ v.block_id) :
    (w.record_vote v).2.states j = w.states j := by
  simp only [Wave.record_vote]
  split
  · simp [mapInsert, h]
  · split
    · simp [mapInsert, h]
    · rw [check_consensus_states_other _ _ _ h]
      simp [mapInsert, h]

/-- A decided block state survives any single recorded vote unchanged. -/
theorem record_vote_decided_frozen (w : Wave) (v : Vote) (id : Nat)
    (s : WaveState) (hs : w.states id = some s) (hd : s.decided = true) :
    (w.record_vote v).2.states id = some s := by
  by_cases hb : id = v.block_id
  · subst hb
    simp [Wave.record_vote, hs, hd, mapInsert]
  · rw [record_vote_states_other _ _ _ hb]
    exact hs

/-- A decided block state survives any single consensus check unchanged. -/
theorem check_consensus_decided_frozen (w : Wave) (id : Nat) (s : WaveState)
    (hs : w.states id = some s) (hd : s.decided = true) :
    (w.check_consensus id).2.states id = some s := by
  have hts : ∀ x, (w.get_threshold).2.states x = w.states x := by
    intro x; rw [get_threshold_states]
  simp [Wave.check_consensus, hts, hs, hd]

/-- C2: once a block state is decided, no subsequent sequence of recorded
votes or consensus checks changes it: the state stays literally the same,
so in particular the `decided` flag stays `true` and the `decision` value
is preserved. -/
theorem c2_decided_frozen (ops : List WaveOp) (w : Wave) (id : Nat)
    (s : WaveState) (hs : w.states id = some s) (hd : s.decided = true) :
    (runWave w ops).states id = some s ∧
    (runWave w ops).is_decided id = true ∧
    (runWave w ops).decision id = s.decision := by
  have hstep : (runWave w ops).states id = some s := by
    induction ops generalizing w with
    | nil => exact hs
    | cons op ops ih =>
      cases op with
      | recordVote v =>
        exact ih _ (record_vote_decided_frozen w v id s hs hd)
      | check i =>
        by_cases hb : id = i
        · subst hb
          exact ih _ (check_consensus_decided_frozen w id s hs hd)
        · exact ih _ ((check_consensus_states_other w i id hb).trans hs)
  refine ⟨hstep, ?_, ?_⟩
  · simp [Wave.is_decided, hstep, hd]
  · simp [Wave.decision, hstep]

/-- Witness for C2: a concrete Wave holding a decided Accept state for
block 1; a Cancel vote and a standalone consensus check leave the state,
the decided flag and the decision unchanged. -/
theorem c2_decided_frozen_witness :
    c2Wave.states 1 = some decidedAcceptState ∧
    decidedAcceptState.decided = true ∧
    (runWave c2Wave
        [WaveOp.recordVote (mkVote 1 99 VoteType.Cancel), WaveOp.check 1]).states 1
      = some decidedAcceptState :=
  ⟨rfl, rfl,
   (c2_decided_frozen
      [WaveOp.recordVote (mkVote 1 99 VoteType.Cancel), WaveOp.check 1]
      c2Wave 1 decidedAcceptState rfl rfl).1⟩

/-- C1 counterexample: in the spec scenario `Duplicate voter ignored`
(testnet config, block `B` added, Preference from one voter twice then
from 4 fresh voters) the block status is `Processing`, not `Accepted` as
the claim states: the single passing consensus round yields confidence 1,
below `beta = 5`. -/
theorem c1_counterexample :
    c1Engine.get_status 1 = Status.Processing ∧
    Status.Processing ≠ Status.Accepted := by
  constructor
  · norm_num [c1Engine, c1Block, mkVote, QuasarEngine.new, QuasarEngine.start,
      QuasarEngine.add, QuasarEngine.record_vote, QuasarEngine.get_status,
      QuasarEngine.accept_block, Wave.new, Wave.record_vote,
      Wave.check_consensus, Wave.get_threshold, Wave.get_or_create_state,
      Wave.state, Wave.decision, WaveState.default, QuasarConsensus.new,
      Block.genesis, mapInsert, QuasarConfig.alpha_count, Int.toNat_ofNat,
      Vote.prefer, QuasarConfig.testnet]
  · intro hc
    cases hc

/-- C1 (amended): in the same scenario the Wave state for `B` has
`yes_count = 5` and a vote list of length 5 (the duplicate vote is
dropped), and the status of `B` is `Processing` — the Wave confidence is
1, below `beta = 5`, so `B` is not yet decided. -/
theorem c1_duplicate_voter_amended :
    (c1Engine.wave.states 1).map WaveState.yes_count = some 5 ∧
    (c1Engine.wave.states 1).map (fun s => s.votes.length) = some 5 ∧
    c1Engine.get_status 1 = Status.Processing := by
  refine ⟨?_, ?_, ?_⟩ <;>
    norm_num [c1Engine, c1Block, mkVote, QuasarEngine.new, QuasarEngine.start,
      QuasarEngine.add, QuasarEngine.record_vote, QuasarEngine.get_status,
      QuasarEngine.accept_block, Wave.new, Wave.record_vote,
      Wave.check_consensus, Wave.get_threshold, Wave.get_or_create_state,
      Wave.state, Wave.decision, WaveState.default, QuasarConsensus.new,
      Block.genesis, mapInsert, QuasarConfig.alpha_count, Int.toNat_ofNat,
      Vote.prefer, QuasarConfig.testnet]

/-- C7 counterexample: `FpcSelector::new(0.9, 0.5, seed)` keeps the valid
minimum 0.9 and clamps only the maximum to 0.8, so the stored bounds
violate `theta_min < theta_max` and are not the default pair (0.5, 0.8),
refuting both parts of the claim. -/
theorem c7_counterexample :
    ¬((FpcSelector.new (9 / 10) (1 / 2) []).theta_min
        < (FpcSelector.new (9 / 10) (1 / 2) []).theta_max) ∧
    ¬((FpcSelector.new (9 / 10) (1 / 2) []).theta_min = 1 / 2 ∧
      (FpcSelector.new (9 / 10) (1 / 2) []).theta_max = 4 / 5) := by
  norm_num [FpcSelector.new]

/-- The minimum stored by `FpcSelector::new`, written out: `tmin` when it
lies in `(0, 1)`, otherwise 0.5. -/
theorem fpc_new_theta_min_eq (tmin tmax : ℚ) (seed : List Nat) :
    (FpcSelector.new tmin tmax seed).theta_min
      = if 0 < tmin ∧ tmin < 1 then tmin else 1 / 2 := rfl

/-- The maximum stored by `FpcSelector::new`, written out: `tmax` when it
is valid against the already-clamped minimum, otherwise 0.8. -/
theorem fpc_new_theta_max_eq (tmin tmax : ℚ) (seed : List Nat) :
    (FpcSelector.new tmin tmax seed).theta_max
      = if (if 0 < tmin ∧ tmin < 1 then tmin else 1 / 2) < tmax ∧ tmax ≤ 1
        then tmax else 4 / 5 := rfl

/-- C7 (amended): `FpcSelector::new` clamps each bound independently: the
result always satisfies `0 < theta_min < 1` and `theta_max ≤ 1`, and
`theta_min < theta_max` holds whenever `theta_min < 0.8`; an invalid
minimum (not in `(0,1)`) is replaced by the default 0.5, and a maximum
invalid against the stored minimum (not in `(theta_min, 1]`) is replaced
by the default 0.8. -/
theorem c7_fpc_new_amended (tmin tmax : ℚ) (seed : List Nat) :
    0 < (FpcSelector.new tmin tmax seed).theta_min ∧
    (FpcSelector.new tmin tmax seed).theta_min < 1 ∧
    (FpcSelector.new tmin tmax seed).theta_max ≤ 1 ∧
    ((FpcSelector.new tmin tmax seed).theta_min < 4 / 5 →
      (FpcSelector.new tmin tmax seed).theta_min
        < (FpcSelector.new tmin tmax seed).theta_max) ∧
    (¬(0 < tmin ∧ tmin < 1) → (FpcSelector.new tmin tmax seed).theta_min = 1 / 2) ∧
    (¬((FpcSelector.new tmin tmax seed).theta_min < tmax ∧ tmax ≤ 1) →
      (FpcSelector.new tmin tmax seed).theta_max = 4 / 5) := by
  rw [fpc_new_theta_min_eq, fpc_new_theta_max_eq]
  by_cases h1 : 0 < tmin ∧ tmin < 1
  · rw [if_pos h1]
    by_cases h2 : tmin < tmax ∧ tmax ≤ 1
    · rw [if_pos h2]
      exact ⟨h1.1, h1.2, h2.2, fun _ => h2.1, fun hc => absurd h1 hc,
        fun hc => absurd h2 hc⟩
    · rw [if_neg h2]
      exact ⟨h1.1, h1.2, by norm_num, fun h => h, fun hc => absurd h1 hc,
        fun _ => rfl⟩
  · rw [if_neg h1]
    by_cases h2 : (1 : ℚ) / 2 < tmax ∧ tmax ≤ 1
    · rw [if_pos h2]
      exact ⟨by norm_num, by norm_num, h2.2, fun _ => h2.1, fun _ => rfl,
        fun hc => absurd h2 hc⟩
    · rw [if_neg h2]
      exact ⟨by norm_num, by norm_num, by norm_num, fun h => h, fun _ => rfl,
        fun _ => rfl⟩

/-- Witness for C7 (amended): with the invalid arguments (0, 2), both
bounds clamp to their defaults. -/
theorem c7_fpc_new_amended_witness :
    (FpcSelector.new 0 2 []).theta_min = 1 / 2 ∧
    (FpcSelector.new 0 2 []).theta_max = 4 / 5 :=
  ⟨(c7_fpc_new_amended 0 2 []).2.2.2.2.1 (by norm_num),
   (c7_fpc_new_amended 0 2 []).2.2.2.2.2 (by norm_num)⟩

/-- C3 counterexample: under the testnet threshold 3 with the single
registered validator 1, three votes all cast by voter 1 yield a
certificate (not `NoQuorum`) whose signer list is `[1, 1, 1]`: the voters
are not deduplicated, only one distinct registered voter backs the
certificate, and the signers contain duplicates. -/
theorem c3_counterexample :
    (c3Quasar.create_certificate 5 1 c3Votes).1 = Except.ok c3Cert ∧
    c3Cert.signers = [1, 1, 1] ∧
    ¬ c3Cert.signers.Nodup ∧
    (∀ v ∈ c3Votes, v.voter = 1) ∧
    c3Quasar.threshold = 3 := by
  refine ⟨?_, rfl, by decide, by decide, ?_⟩
  · norm_num [c3Quasar, c3Votes, c3Cert, QuasarConsensus.create_certificate,
      QuasarConsensus.new, QuasarConsensus.add_validator, mapInsert,
      aggregate_bls_signatures, collect_quantum_signatures,
      QuasarConfig.alpha_count, QuasarConfig.testnet, Int.toNat_ofNat,
      List.replicate]
  · simp [c3Quasar, QuasarConsensus.new, QuasarConsensus.add_validator,
      testnet_alpha_count_eq]

/-- C3 (amended): `create_certificate` filters the votes to those whose
voter is a registered validator but does not deduplicate voters; it fails
with `NoQuorum` if and only if the filtered vote list (counted with
multiplicity) is shorter than the threshold; otherwise it returns a
certificate whose signers are exactly the voters of the filtered votes in
order — all registered validators and at least threshold many, but
possibly with duplicates. -/
theorem c3_create_certificate_amended (q : QuasarConsensus) (bid ht : Nat)
    (votes : List Vote) :
    ((q.create_certificate bid ht votes).1 = Except.error ConsensusError.NoQuorum ↔
      ((votes.filter (fun v => (q.validators v.voter).isSome)).map
          (fun v => v.voter)).length < q.threshold) ∧
    (∀ cert, (q.create_certificate bid ht votes).1 = Except.ok cert →
      cert.signers
          = (votes.filter (fun v => (q.validators v.voter).isSome)).map
              (fun v => v.voter) ∧
      q.threshold ≤ cert.signers.length ∧
      ∀ s ∈ cert.signers, (q.validators s).isSome) := by
  have hlen :
      ((votes.filter (fun v => (q.validators v.voter).isSome)).map
          (fun v => v.voter)).length ≤ votes.length := by
    rw [List.length_map]
    exact List.length_filter_le _ _
  by_cases h1 : votes.length < q.threshold
  · have hr : (q.create_certificate bid ht votes).1
        = Except.error ConsensusError.NoQuorum := by
      simp only [QuasarConsensus.create_certificate, if_pos h1]
    rw [hr]
    refine ⟨⟨fun _ => by omega, fun _ => rfl⟩, fun cert hc => by simp at hc⟩
  · by_cases h2 :
        ((votes.filter (fun v => (q.validators v.voter).isSome)).map
            (fun v => v.voter)).length < q.threshold
    · have hr : (q.create_certificate bid ht votes).1
          = Except.error ConsensusError.NoQuorum := by
        simp only [QuasarConsensus.create_certificate, if_neg h1, if_pos h2]
      rw [hr]
      exact ⟨⟨fun _ => h2, fun _ => rfl⟩, fun cert hc => by simp at hc⟩
    · have hr : (q.create_certificate bid ht votes).1
          = Except.ok
              { block_id := bid
                height := ht
                signers :=
                  (votes.filter (fun v => (q.validators v.voter).isSome)).map
                    (fun v => v.voter)
                aggregated_sig := aggregate_bls_signatures votes
                quantum_sigs := collect_quantum_signatures votes
                timestamp := 0 } := by
        simp only [QuasarConsensus.create_certificate, if_neg h1, if_neg h2]
      rw [hr]
      refine ⟨⟨fun hc => by simp at hc, fun hlt => absurd hlt h2⟩, ?_⟩
      intro cert hc
      injection hc with hc
      subst hc
      refine ⟨rfl, by dsimp only; omega, ?_⟩
      intro s hs
      rcases List.mem_map.mp hs with ⟨v, hv, hvs⟩
      rcases List.mem_filter.mp hv with ⟨_, hp⟩
      rw [← hvs]
      exact hp

/-- Witness for C3 (amended): applied to the concrete certifier and votes
of the counterexample, the minted certificate has exactly the filtered
voter list as signers, at least threshold many, all registered. -/
theorem c3_create_certificate_amended_witness :
    c3Cert.signers
        = (c3Votes.filter (fun v => (c3Quasar.validators v.voter).isSome)).map
            (fun v => v.voter) ∧
    c3Quasar.threshold ≤ c3Cert.signers.length ∧
    ∀ s ∈ c3Cert.signers, (c3Quasar.validators s).isSome :=
  (c3_create_certificate_amended c3Quasar 5 1 c3Votes).2 c3Cert
    (by norm_num [c3Quasar, c3Votes, c3Cert, QuasarConsensus.create_certificate,
      QuasarConsensus.new, QuasarConsensus.add_validator, mapInsert,
      aggregate_bls_signatures, collect_quantum_signatures,
      QuasarConfig.alpha_count, QuasarConfig.testnet, Int.toNat_ofNat,
      List.replicate])

/-- Every byte of a little-endian u64 encoding is below 256. -/
theorem toLeBytes8_lt (x : Nat) : ∀ b ∈ toLeBytes8 x, b < 256 := by
  simp only [toLeBytes8, List.mem_cons, List.not_mem_nil, or_false]
  intro b hb
  rcases hb with h | h | h | h | h | h | h | h <;> subst h <;> omega

/-- Reading a byte list big-endian stays below `256 ^ length`. -/
theorem fromBeBytes_lt (l : List Nat) (h : ∀ b ∈ l, b < 256) :
    fromBeBytes l < 256 ^ l.length := by
  have haux : ∀ (l : List Nat) (acc : Nat), (∀ b ∈ l, b < 256) →
      List.foldl (fun acc b => acc * 256 + b) acc l < (acc + 1) * 256 ^ l.length := by
    intro l
    induction l with
    | nil => intro acc _; simp
    | cons b t ih =>
      intro acc hb
      have hbt : b < 256 := hb b (List.mem_cons_self b t)
      have ht : ∀ x ∈ t, x < 256 := fun x hx => hb x (List.mem_cons_of_mem b hx)
      have h1 := ih (acc * 256 + b) ht
      have h2 : (acc * 256 + b + 1) * 256 ^ t.length
          ≤ ((acc + 1) * 256) * 256 ^ t.length :=
        Nat.mul_le_mul_right _ (by omega)
      calc List.foldl (fun acc b => acc * 256 + b) (acc * 256 + b) t
          < (acc * 256 + b + 1) * 256 ^ t.length := h1
        _ ≤ ((acc + 1) * 256) * 256 ^ t.length := h2
        _ = (acc + 1) * 256 ^ (b :: t).length := by
            rw [List.length_cons, Nat.pow_succ]
            ring
  have := haux l 0 h
  simpa [fromBeBytes] using this

/-- Every output byte of the FPC mixing hash is below 256. -/
theorem simple_hash_bytes_lt (input : List Nat) :
    ∀ b ∈ simple_hash input, b < 256 := by
  intro b hb
  simp only [simple_hash, List.mem_append] at hb
  rcases hb with ((h | h) | h) | h
  · exact toLeBytes8_lt _ b h
  · exact toLeBytes8_lt _ b h
  · exact toLeBytes8_lt _ b h
  · exact toLeBytes8_lt _ b h

/-- The 64-bit word read from the head of the FPC hash output is at most
`2 ^ 64 - 1`. -/
theorem hash_head_le (input : List Nat) :
    fromBeBytes ((simple_hash input).take 8) ≤ U64 - 1 := by
  have hmem : ∀ b ∈ (simple_hash input).take 8, b < 256 := by
    intro b hb
    exact simple_hash_bytes_lt input b (List.mem_of_mem_take hb)
  have hlen : ((simple_hash input).take 8).length ≤ 8 := by
    simp
  have h1 := fromBeBytes_lt _ hmem
  have h2 : (256 : Nat) ^ ((simple_hash input).take 8).length ≤ 256 ^ 8 :=
    Nat.pow_le_pow_right (by norm_num) hlen
  have h3 : (256 : Nat) ^ 8 = U64 := by norm_num [U64]
  omega

/-- C8: for a selector constructed with valid bounds
`0 < theta_min < theta_max ≤ 1`, the theta value of every phase lies in
the closed configured interval `[theta_min, theta_max]`. -/
theorem c8_theta_range (tmin tmax : ℚ) (seed : List Nat) (phase : Nat)
    (h1 : 0 < tmin) (h2 : tmin < tmax) (h3 : tmax ≤ 1) :
    tmin ≤ (FpcSelector.new tmin tmax seed).theta phase ∧
    (FpcSelector.new tmin tmax seed).theta phase ≤ tmax := by
  have hc : 0 < tmin ∧ tmin < 1 := ⟨h1, lt_of_lt_of_le h2 h3⟩
  have hmin : (FpcSelector.new tmin tmax seed).theta_min = tmin := by
    rw [fpc_new_theta_min_eq, if_pos hc]
  have hmax : (FpcSelector.new tmin tmax seed).theta_max = tmax := by
    rw [fpc_new_theta_max_eq, if_pos hc, if_pos ⟨h2, h3⟩]
  simp only [FpcSelector.theta, FpcSelector.compute_theta, hmin, hmax]
  set h64 := fromBeBytes
    ((simple_hash ((FpcSelector.new tmin tmax seed).seed ++ toBeBytes8 phase)).take 8)
    with hh64
  have hb : h64 ≤ U64 - 1 := hash_head_le _
  have hden : (0 : ℚ) < ((U64 - 1 : Nat) : ℚ) := by
    have : (0 : Nat) < U64 - 1 := by norm_num [U64]
    exact_mod_cast this
  have hq0 : (0 : ℚ) ≤ (h64 : ℚ) / ((U64 - 1 : Nat) : ℚ) := by positivity
  have hq1 : (h64 : ℚ) / ((U64 - 1 : Nat) : ℚ) ≤ 1 := by
    rw [div_le_one hden]
    exact_mod_cast hb
  have hd : (0 : ℚ) ≤ tmax - tmin := by linarith
  constructor
  · nlinarith [mul_nonneg hq0 hd]
  · nlinarith [mul_le_mul_of_nonneg_right hq1 hd]

/-- Witness for C8: the default bounds (0.5, 0.8) with the default seed at
phase 0: theta lies in the closed interval `[0.5, 0.8]`. -/
theorem c8_theta_range_witness :
    (0 : ℚ) < 1 / 2 ∧ (1 / 2 : ℚ) < 4 / 5 ∧ (4 / 5 : ℚ) ≤ 1 ∧
    (1 / 2 ≤ (FpcSelector.new (1 / 2) (4 / 5) defaultSeedBytes).theta 0 ∧
     (FpcSelector.new (1 / 2) (4 / 5) defaultSeedBytes).theta 0 ≤ 4 / 5) :=
  ⟨by norm_num, by norm_num, by norm_num,
   c8_theta_range (1 / 2) (4 / 5) defaultSeedBytes 0 (by norm_num) (by norm_num)
     (by norm_num)⟩

/-- The height watermark after `accept_block`, written out: the stored
height of the block when that is strictly higher, otherwise unchanged. -/
theorem accept_block_height_eq (e : QuasarEngine) (bid : Nat) :
    (e.accept_block bid).height
      = match e.blocks bid with
        | some b => if e.height < b.height then b.height else e.height
        | none => e.height := by
  unfold QuasarEngine.accept_block Wave.state
  cases hb : e.blocks bid with
  | none =>
    dsimp only
    rw [hb]
    dsimp only
    cases hw : e.wave.states bid <;> simp [hb, hw]
  | some b =>
    dsimp only
    rw [hb]
    dsimp only
    by_cases hh : e.height < b.height
    · rw [if_pos hh]
      cases hw : e.wave.states bid <;> simp [hb, hh, hw]
    · rw [if_neg hh]
      cases hw : e.wave.states bid <;> simp [hb, hh, hw]

/-- Accepting a block always leaves its status entry at `Accepted`. -/
theorem accept_block_status (e : QuasarEngine) (bid : Nat) :
    (e.accept_block bid).status bid = some Status.Accepted := by
  unfold QuasarEngine.accept_block Wave.state
  cases hb : e.blocks bid with
  | none =>
    dsimp only
    rw [hb]
    dsimp only
    cases hw : e.wave.states bid <;> simp [hb, hw, mapInsert]
  | some b =>
    dsimp only
    rw [hb]
    dsimp only
    by_cases hh : e.height < b.height
    · rw [if_pos hh]
      cases hw : e.wave.states bid <;> simp [hb, hw, mapInsert]
    · rw [if_neg hh]
      cases hw : e.wave.states bid <;> simp [hb, hw, mapInsert]

/-- Accepting a block never lowers the height watermark, and when the
watermark moves it moves to the stored height of the accepted block, which
strictly exceeds the old watermark. -/
theorem accept_block_height_char (e : QuasarEngine) (bid : Nat) :
    e.height ≤ (e.accept_block bid).height ∧
    ((e.accept_block bid).height ≠ e.height →
      ∃ b, e.blocks bid = some b ∧ e.height < b.height ∧
        (e.accept_block bid).height = b.height) := by
  rw [accept_block_height_eq]
  cases hb : e.blocks bid with
  | none => exact ⟨le_refl _, fun hne => absurd rfl hne⟩
  | some b =>
    dsimp only
    by_cases hh : e.height < b.height
    · rw [if_pos hh]
      exact ⟨le_of_lt hh, fun _ => ⟨b, rfl, hh, rfl⟩⟩
    · rw [if_neg hh]
      exact ⟨le_refl _, fun hne => absurd rfl hne⟩

/-- Recording a vote never lowers the height watermark. -/
theorem record_vote_height_le (e : QuasarEngine) (v : Vote) :
    e.height ≤ (e.record_vote v).2.height := by
  unfold QuasarEngine.record_vote
  split
  · simp
  · split
    · simp
    · dsimp only
      split
      · split
        · exact (accept_block_height_char
            { e with wave := (e.wave.record_vote v).2 } v.block_id).1
        · simp
        · simp
      · simp

/-- When recording a vote changes the height watermark, the vote's block
was just accepted and the new watermark is the stored height of that
block, strictly above the old watermark. -/
theorem record_vote_height_char (e : QuasarEngine) (v : Vote) :
    (e.record_vote v).2.height ≠ e.height →
    (e.record_vote v).2.status v.block_id = some Status.Accepted ∧
    ∃ b, e.blocks v.block_id = some b ∧ e.height < b.height ∧
      (e.record_vote v).2.height = b.height := by
  unfold QuasarEngine.record_vote
  split
  · intro hne; exact absurd rfl hne
  · split
    · intro hne; exact absurd rfl hne
    · dsimp only
      split
      · split
        · intro hne
          refine ⟨accept_block_status _ _, ?_⟩
          exact (accept_block_height_char
            { e with wave := (e.wave.record_vote v).2 } v.block_id).2 hne
        · intro hne; exact absurd rfl hne
        · intro hne; exact absurd rfl hne
      · intro hne; exact absurd rfl hne

/-- A vote whose processing leaves the block Rejected does not move the
height watermark. -/
theorem record_vote_rejected_height (e : QuasarEngine) (v : Vote) :
    (e.record_vote v).2.get_status v.block_id = Status.Rejected →
    (e.record_vote v).2.height = e.height := by
  intro h
  by_cases hne : (e.record_vote v).2.height = e.height
  · exact hne
  · have hc := record_vote_height_char e v hne
    rw [QuasarEngine.get_status, hc.1] at h
    simp at h

/-- No single engine operation lowers the height watermark. -/
theorem step_height_le (e : QuasarEngine) (op : Op) :
    e.height ≤ (stepOp e op).height := by
  cases op with
  | start =>
    simp only [stepOp, QuasarEngine.start]
    split <;> simp
  | stop => simp [stepOp, QuasarEngine.stop]
  | addValidator id w => simp [stepOp, QuasarEngine.add_validator]
  | add b =>
    simp only [stepOp, QuasarEngine.add]
    split <;> simp
  | recordVote v => exact record_vote_height_le e v
  | recordBatch vs =>
    simp only [stepOp, QuasarEngine.record_votes_batch]
    have haux : ∀ (vs : List Vote) (p : Nat × QuasarEngine),
        p.2.height ≤ (vs.foldl
          (fun acc vote =>
            let re := acc.2.record_vote vote
            (acc.1 + (match re.1 with | Except.ok _ => 1 | Except.error _ => 0),
             re.2)) p).2.height := by
      intro vs
      induction vs with
      | nil => intro p; simp
      | cons v t ih =>
        intro p
        refine le_trans (record_vote_height_le p.2 v) ?_
        simpa using ih ((p.1 + _, (p.2.record_vote v).2))
    exact haux vs (0, e)

/-- C6: across every sequence of engine operations the height watermark is
non-decreasing; a single `record_vote` changes it only when the vote's
block ends up `Accepted` with a stored height strictly above the old
watermark (and the watermark becomes exactly that height); a vote whose
block ends up `Rejected` leaves the watermark unchanged. -/
theorem c6_height_watermark :
    (∀ (e : QuasarEngine) (ops : List Op), e.height ≤ (runOps e ops).height) ∧
    (∀ (e : QuasarEngine) (v : Vote), (e.record_vote v).2.height ≠ e.height →
      (e.record_vote v).2.get_status v.block_id = Status.Accepted ∧
      ∃ b, e.blocks v.block_id = some b ∧ e.height < b.height ∧
        (e.record_vote v).2.height = b.height) ∧
    (∀ (e : QuasarEngine) (v : Vote),
      (e.record_vote v).2.get_status v.block_id = Status.Rejected →
      (e.record_vote v).2.height = e.height) := by
  refine ⟨?_, ?_, record_vote_rejected_height⟩
  · intro e ops
    induction ops generalizing e with
    | nil => exact le_refl _
    | cons op ops ih =>
      exact le_trans (step_height_le e op) (ih (stepOp e op))
  · intro e v hne
    have hc := record_vote_height_char e v hne
    exact ⟨by rw [QuasarEngine.get_status, hc.1]; rfl, hc.2⟩

/-- Witness for C6: on the concrete engine `c6Engine` (watermark 0, block
1 stored at height 7, one round short of finality) the fifth Preference
vote moves the watermark, and the theorem yields that block 1 is Accepted
and the watermark equals the stored height 7. -/
theorem c6_height_watermark_witness :
    (c6Engine.record_vote c6Vote).2.height ≠ c6Engine.height ∧
    ((c6Engine.record_vote c6Vote).2.get_status 1 = Status.Accepted ∧
     ∃ b, c6Engine.blocks 1 = some b ∧ c6Engine.height < b.height ∧
       (c6Engine.record_vote c6Vote).2.height = b.height) := by
  have hne : (c6Engine.record_vote c6Vote).2.height ≠ c6Engine.height := by
    norm_num [c6Engine, c6State, c6Block, c6Vote, mkVote,
      QuasarEngine.record_vote, Wave.record_vote, Wave.check_consensus,
      Wave.get_threshold, Wave.state, Wave.decision, QuasarEngine.accept_block,
      QuasarConsensus.create_certificate, QuasarConsensus.new, mapInsert,
      QuasarConfig.alpha_count, QuasarConfig.testnet, Int.toNat_ofNat,
      Vote.prefer, collect_quantum_signatures, aggregate_bls_signatures]
  exact ⟨hne, c6_height_watermark.2.1 c6Engine c6Vote hne⟩

/-- Recording a vote for a block whose Wave state is decided returns
`false` and only re-inserts the existing state. -/
theorem record_vote_decided_result (w : Wave) (v : Vote) (s : WaveState)
    (hs : w.states v.block_id = some s) (hd : s.decided = true) :
    w.record_vote v = (false, { w with states := mapInsert w.states v.block_id s }) := by
  simp [Wave.record_vote, hs, hd]

/-- The blocks map after a successful `add`: the block is inserted (and
nothing later in `add` touches the map). -/
theorem add_components (e : QuasarEngine) (b : Block) (hstart : e.started = true) :
    (e.add b).1 = Except.ok () ∧
    (e.add b).2.blocks = mapInsert e.blocks b.id b ∧
    (e.add b).2.status = mapInsert e.status b.id Status.Processing ∧
    (e.add b).2.started = e.started ∧
    (e.add b).2.wave = (e.wave.get_or_create_state b.id).2 := by
  have hC : ¬¬(e.started = true) := fun hc => hc hstart
  unfold QuasarEngine.add
  rw [if_neg hC]
  exact ⟨rfl, rfl, rfl, rfl, rfl⟩

/-- C10: on a started engine, `add(b)` for an id whose status is already
`Accepted` or `Rejected` succeeds, overwrites the stored block, resets the
status of the id to `Processing`, and preserves the existing Wave state of
the id; when that Wave state is decided, a subsequent vote for the id is
not counted (the Wave state stays literally the same), so the status stays
`Processing`. -/
theorem c10_readd_decided_block (e : QuasarEngine) (b : Block)
    (hstart : e.started = true)
    (_hstatus : e.status b.id = some Status.Accepted ∨
      e.status b.id = some Status.Rejected) :
    (e.add b).1 = Except.ok () ∧
    (e.add b).2.blocks b.id = some b ∧
    (e.add b).2.status b.id = some Status.Processing ∧
    (∀ s, e.wave.states b.id = some s → (e.add b).2.wave.states b.id = some s) ∧
    (∀ s v, e.wave.states b.id = some s → s.decided = true → v.block_id = b.id →
      ((e.add b).2.record_vote v).1 = Except.ok () ∧
      (((e.add b).2.record_vote v).2).wave.states b.id = some s ∧
      (((e.add b).2.record_vote v).2).get_status b.id = Status.Processing) := by
  obtain ⟨hok, hblocks, hst, hstarted, hwave⟩ := add_components e b hstart
  have hwave_keep : ∀ s, e.wave.states b.id = some s →
      (e.add b).2.wave = e.wave := by
    intro s hs
    rw [hwave]
    unfold Wave.get_or_create_state
    rw [hs]
  refine ⟨hok, by rw [hblocks]; simp [mapInsert],
    by rw [hst]; simp [mapInsert], ?_, ?_⟩
  · intro s hs
    rw [hwave_keep s hs]
    exact hs
  · intro s v hs hd hv
    have hw : (e.add b).2.wave = e.wave := hwave_keep s hs
    have hs2 : (e.add b).2.wave.states v.block_id = some s := by
      rw [hw, hv]; exact hs
    have hrv := record_vote_decided_result ((e.add b).2.wave) v s hs2 hd
    have hb2 : (e.add b).2.blocks v.block_id = some b := by
      rw [hv, hblocks]; simp [mapInsert]
    have hC : ¬¬((e.add b).2.started = true) := by
      rw [hstarted]; exact fun hc => hc hstart
    have hmain : (e.add b).2.record_vote v
        = (Except.ok (),
           { (e.add b).2 with
             wave := { (e.add b).2.wave with
               states := mapInsert ((e.add b).2.wave).states v.block_id s } }) := by
      unfold QuasarEngine.record_vote
      rw [if_neg hC]
      rw [hrv]
      simp [hb2]
    rw [hmain]
    refine ⟨rfl, ?_, ?_⟩
    · simp [mapInsert, hv]
    · rw [QuasarEngine.get_status]
      have : (e.add b).2.status b.id = some Status.Processing := by
        rw [hst]; simp [mapInsert]
      simp only [this]
      rfl

/-- Similar votes agree on `prefer`. -/
theorem voteSim_prefer {v u : Vote} (h : voteSim v u) : v.prefer = u.prefer := by
  unfold Vote.prefer
  rw [h.2.1]

/-- Pointwise-similar ledgers agree on the duplicate-voter test. -/
theorem forall2_any_voter {l1 l2 : List Vote}
    (h : List.Forall₂ voteSim l1 l2) (x : Nat) :
    l1.any (fun u => u.voter = x) = l2.any (fun u => u.voter = x) := by
  induction h with
  | nil => rfl
  | cons hv _ ih =>
    simp only [List.any_cons, ih, hv.2.2]

/-- Pointwise-similar ledgers filtered by validator membership project to
the same voter list. -/
theorem forall2_filter_map_voter {l1 l2 : List Vote}
    (h : List.Forall₂ voteSim l1 l2) (V : Nat → Option Validator) :
    (l1.filter (fun v => (V v.voter).isSome)).map (fun v => v.voter)
      = (l2.filter (fun v => (V v.voter).isSome)).map (fun v => v.voter) := by
  induction h with
  | nil => rfl
  | @cons a b t1 t2 hv _ ih =>
    by_cases hm : (V a.voter).isSome = true
    · have hm2 : (V b.voter).isSome = true := by rw [← hv.2.2]; exact hm
      simp only [List.filter_cons]
      rw [if_pos hm, if_pos hm2]
      simp only [List.map_cons, ih, hv.2.2]
    · have hm2 : ¬((V b.voter).isSome = true) := by rw [← hv.2.2]; exact hm
      simp only [List.filter_cons]
      rw [if_neg hm, if_neg hm2]
      exact ih

/-- Point insertion of similar values into pointwise-similar maps yields
pointwise-similar maps. -/
theorem mapInsert_optRel {α : Type} {r : α → α → Prop} {m1 m2 : Nat → Option α}
    (h : ∀ id, optRel r (m1 id) (m2 id)) (k : Nat) {v1 v2 : α} (hv : r v1 v2) :
    ∀ id, optRel r ((mapInsert m1 k v1) id) ((mapInsert m2 k v2) id) := by
  intro id
  unfold mapInsert
  by_cases hk : id = k
  · simp [hk, optRel, hv]
  · simp only [if_neg hk]
    exact h id

/-- The default Wave state is similar to itself. -/
theorem wsSim_default : wsSim WaveState.default WaveState.default :=
  ⟨List.Forall₂.nil, rfl, rfl, rfl, rfl, rfl, rfl⟩

/-- Equal maps are pointwise similar under any reflexive-enough reading:
both sides are the same map built from equal components. -/
theorem engineSim_new (cfg : QuasarConfig) :
    engineSim (QuasarEngine.new cfg) (QuasarEngine.new cfg) := by
  refine ⟨rfl, ⟨rfl, rfl, rfl, fun id => ?_⟩, ⟨rfl, rfl, rfl, fun id => ?_⟩,
    rfl, rfl, rfl, rfl⟩
  · simp [QuasarEngine.new, Wave.new, optRel]
  · simp [QuasarEngine.new, QuasarConsensus.new, optRel]

/-- Similar Waves produce the same threshold and stay similar. -/
theorem get_threshold_sim {w x : Wave} (h : waveSim w x) :
    (w.get_threshold).1 = (x.get_threshold).1 ∧
    waveSim (w.get_threshold).2 (x.get_threshold).2 := by
  obtain ⟨hc, hf, hp, hs⟩ := h
  unfold Wave.get_threshold
  rw [hf]
  cases hfp : x.fpc with
  | none =>
    exact ⟨by rw [hc], hc, hf, hp, hs⟩
  | some fpc =>
    exact ⟨by rw [hp, hc], hc, rfl, by dsimp only; rw [hp], hs⟩

/-- Unfolding equation for `check_consensus`, with the threshold draw made
explicit. -/
theorem check_consensus_eq (w : Wave) (bid : Nat) :
    w.check_consensus bid =
      match (w.get_threshold).2.states bid with
      | none => (false, (w.get_threshold).2)
      | some state =>
        if state.decided = true then (false, (w.get_threshold).2)
        else
          if state.yes_count + state.no_count < (w.get_threshold).2.config.k then
            (false, (w.get_threshold).2)
          else
            let state2 :=
              if (w.get_threshold).1 ≤ state.yes_count then
                if state.preference = true then
                  { state with confidence := state.confidence + 1 }
                else
                  { state with preference := true, confidence := 1 }
              else if (w.get_threshold).1 ≤ state.no_count then
                if state.preference = true then
                  { state with preference := false, confidence := 1 }
                else
                  { state with confidence := state.confidence + 1 }
              else
                { state with confidence := 0 }
            if (w.get_threshold).2.config.beta ≤ state2.confidence then
              (true,
               { (w.get_threshold).2 with
                 states := mapInsert (w.get_threshold).2.states bid
                   { state2 with
                     decided := true,
                     decision :=
                       if state2.preference = true then Decision.Accept
                       else Decision.Reject } })
            else
              (false,
               { (w.get_threshold).2 with
                 states := mapInsert (w.get_threshold).2.states bid state2 }) := rfl

/-- Similar Waves agree on the outcome of a consensus check and stay
similar. -/
theorem check_consensus_sim {w x : Wave} (bid : Nat) (h : waveSim w x) :
    (w.check_consensus bid).1 = (x.check_consensus bid).1 ∧
    waveSim (w.check_consensus bid).2 (x.check_consensus bid).2 := by
  obtain ⟨hth, hsim⟩ := get_threshold_sim h
  obtain ⟨hc, hf, hp, hs⟩ := hsim
  have hk : (w.get_threshold).2.config.k = (x.get_threshold).2.config.k := by
    rw [hc]
  have hbeta :
      (w.get_threshold).2.config.beta = (x.get_threshold).2.config.beta := by
    rw [hc]
  rw [check_consensus_eq w bid, check_consensus_eq x bid]
  have hrel := hs bid
  cases hw1 : (w.get_threshold).2.states bid with
  | none =>
    cases hx1 : (x.get_threshold).2.states bid with
    | none => exact ⟨rfl, hc, hf, hp, hs⟩
    | some t => rw [hw1, hx1] at hrel; exact absurd hrel (by simp [optRel])
  | some s =>
    cases hx1 : (x.get_threshold).2.states bid with
    | none => rw [hw1, hx1] at hrel; exact absurd hrel (by simp [optRel])
    | some t =>
      rw [hw1, hx1] at hrel
      obtain ⟨hv, hy, hn, hpref, hconf, hdec, hdecis⟩ := hrel
      dsimp only
      have hstep : ∀ (s2 t2 : WaveState), wsSim s2 t2 →
          ((if (w.get_threshold).2.config.beta ≤ s2.confidence then
              (true,
               { (w.get_threshold).2 with
                 states := mapInsert (w.get_threshold).2.states bid
                   { s2 with
                     decided := true,
                     decision :=
                       if s2.preference = true then Decision.Accept
                       else Decision.Reject } })
            else
              (false,
               { (w.get_threshold).2 with
                 states := mapInsert (w.get_threshold).2.states bid s2 })).1
            = (if (x.get_threshold).2.config.beta ≤ t2.confidence then
              (true,
               { (x.get_threshold).2 with
                 states := mapInsert (x.get_threshold).2.states bid
                   { t2 with
                     decided := true,
                     decision :=
                       if t2.preference = true then Decision.Accept
                       else Decision.Reject } })
            else
              (false,
               { (x.get_threshold).2 with
                 states := mapInsert (x.get_threshold).2.states bid t2 })).1) ∧
          waveSim
            (if (w.get_threshold).2.config.beta ≤ s2.confidence then
              (true,
               { (w.get_threshold).2 with
                 states := mapInsert (w.get_threshold).2.states bid
                   { s2 with
                     decided := true,
                     decision :=
                       if s2.preference = true then Decision.Accept
                       else Decision.Reject } })
            else
              (false,
               { (w.get_threshold).2 with
                 states := mapInsert (w.get_threshold).2.states bid s2 })).2
            (if (x.get_threshold).2.config.beta ≤ t2.confidence then
              (true,
               { (x.get_threshold).2 with
                 states := mapInsert (x.get_threshold).2.states bid
                   { t2 with
                     decided := true,
                     decision :=
                       if t2.preference = true then Decision.Accept
                       else Decision.Reject } })
            else
              (false,
               { (x.get_threshold).2 with
                 states := mapInsert (x.get_threshold).2.states bid t2 })).2 := by
        intro s2 t2 hs2
        obtain ⟨hv2, hy2, hn2, hpref2, hconf2, hdec2, hdecis2⟩ := hs2
        by_cases h3 : (w.get_threshold).2.config.beta ≤ s2.confidence
        · have h3x : (x.get_threshold).2.config.beta ≤ t2.confidence := by
            rw [← hconf2, ← hbeta]; exact h3
          rw [if_pos h3, if_pos h3x]
          refine ⟨rfl, hc, hf, hp, mapInsert_optRel hs bid ?_⟩
          exact ⟨hv2, hy2, hn2, hpref2, hconf2, rfl, by rw [hpref2]⟩
        · have h3x : ¬((x.get_threshold).2.config.beta ≤ t2.confidence) := by
            rw [← hconf2, ← hbeta]; exact h3
          rw [if_neg h3, if_neg h3x]
          refine ⟨rfl, hc, hf, hp, mapInsert_optRel hs bid ?_⟩
          exact ⟨hv2, hy2, hn2, hpref2, hconf2, hdec2, hdecis2⟩
      by_cases hd : s.decided = true
      · have hdx : t.decided = true := by rw [← hdec]; exact hd
        rw [if_pos hd, if_pos hdx]
        exact ⟨rfl, hc, hf, hp, hs⟩
      · have hdx : ¬(t.decided = true) := by rw [← hdec]; exact hd
        rw [if_neg hd, if_neg hdx]
        by_cases htot : s.yes_count + s.no_count < (w.get_threshold).2.config.k
        · have htotx :
              t.yes_count + t.no_count < (x.get_threshold).2.config.k := by
            rw [← hy, ← hn, ← hk]; exact htot
          rw [if_pos htot, if_pos htotx]
          exact ⟨rfl, hc, hf, hp, hs⟩
        · have htotx :
              ¬(t.yes_count + t.no_count < (x.get_threshold).2.config.k) := by
            rw [← hy, ← hn, ← hk]; exact htot
          rw [if_neg htot, if_neg htotx]
          rw [← hth]
          by_cases h1 : (w.get_threshold).1 ≤ s.yes_count
          · have h1x : (w.get_threshold).1 ≤ t.yes_count := by
              rw [← hy]; exact h1
            rw [if_pos h1, if_pos h1x]
            by_cases h2 : s.preference = true
            · have h2x : t.preference = true := by rw [← hpref]; exact h2
              rw [if_pos h2, if_pos h2x]
              exact hstep _ _ ⟨hv, hy, hn, hpref, by rw [hconf], hdec, hdecis⟩
            · have h2x : ¬(t.preference = true) := by rw [← hpref]; exact h2
              rw [if_neg h2, if_neg h2x]
              exact hstep _ _ ⟨hv, hy, hn, rfl, rfl, hdec, hdecis⟩
          · have h1x : ¬((w.get_threshold).1 ≤ t.yes_count) := by
              rw [← hy]; exact h1
            rw [if_neg h1, if_neg h1x]
            by_cases h1b : (w.get_threshold).1 ≤ s.no_count
            · have h1bx : (w.get_threshold).1 ≤ t.no_count := by
                rw [← hn]; exact h1b
              rw [if_pos h1b, if_pos h1bx]
              by_cases h2 : s.preference = true
              · have h2x : t.preference = true := by rw [← hpref]; exact h2
                rw [if_pos h2, if_pos h2x]
                exact hstep _ _ ⟨hv, hy, hn, rfl, rfl, hdec, hdecis⟩
              · have h2x : ¬(t.preference = true) := by rw [← hpref]; exact h2
                rw [if_neg h2, if_neg h2x]
                exact hstep _ _ ⟨hv, hy, hn, hpref, by rw [hconf], hdec, hdecis⟩
            · have h1bx : ¬((w.get_threshold).1 ≤ t.no_count) := by
                rw [← hn]; exact h1b
              rw [if_neg h1b, if_neg h1bx]
              exact hstep _ _ ⟨hv, hy, hn, hpref, rfl, hdec, hdecis⟩

/-- Similar Waves fed with similar votes agree on the decision flag and
stay similar. -/
theorem record_vote_sim {w x : Wave} {v u : Vote} (hvu : voteSim v u)
    (h : waveSim w x) :
    (w.record_vote v).1 = (x.record_vote u).1 ∧
    waveSim (w.record_vote v).2 (x.record_vote u).2 := by
  obtain ⟨hbid, htype, hvoter⟩ := hvu
  obtain ⟨hc, hf, hp, hs⟩ := h
  have hpref_vu : v.prefer = u.prefer := voteSim_prefer ⟨hbid, htype, hvoter⟩
  simp only [Wave.record_vote]
  rw [← hbid, ← hvoter, ← hpref_vu]
  have hsim_st : wsSim ((w.states v.block_id).getD WaveState.default)
      ((x.states v.block_id).getD WaveState.default) := by
    have hrel := hs v.block_id
    cases hw1 : w.states v.block_id with
    | none =>
      cases hx1 : x.states v.block_id with
      | none => exact wsSim_default
      | some t => rw [hw1, hx1] at hrel; exact absurd hrel (by simp [optRel])
    | some s =>
      cases hx1 : x.states v.block_id with
      | none => rw [hw1, hx1] at hrel; exact absurd hrel (by simp [optRel])
      | some t => rw [hw1, hx1] at hrel; exact hrel
  obtain ⟨hv2, hy2, hn2, hpref2, hconf2, hdec2, hdecis2⟩ := hsim_st
  have hs1 := mapInsert_optRel hs v.block_id
    (⟨hv2, hy2, hn2, hpref2, hconf2, hdec2, hdecis2⟩ :
      wsSim ((w.states v.block_id).getD WaveState.default)
        ((x.states v.block_id).getD WaveState.default))
  by_cases hd : ((w.states v.block_id).getD WaveState.default).decided = true
  · have hdx : ((x.states v.block_id).getD WaveState.default).decided = true := by
      rw [← hdec2]; exact hd
    rw [if_pos hd, if_pos hdx]
    exact ⟨rfl, hc, hf, hp, hs1⟩
  · have hdx :
        ¬(((x.states v.block_id).getD WaveState.default).decided = true) := by
      rw [← hdec2]; exact hd
    rw [if_neg hd, if_neg hdx]
    have hany := forall2_any_voter hv2 v.voter
    by_cases hdup : ((w.states v.block_id).getD WaveState.default).votes.any
        (fun z => z.voter = v.voter) = true
    · have hdupx : ((x.states v.block_id).getD WaveState.default).votes.any
          (fun z => z.voter = v.voter) = true := by
        rw [← hany]; exact hdup
      rw [if_pos hdup, if_pos hdupx]
      exact ⟨rfl, hc, hf, hp, hs1⟩
    · have hdupx : ¬(((x.states v.block_id).getD WaveState.default).votes.any
          (fun z => z.voter = v.voter) = true) := by
        rw [← hany]; exact hdup
      rw [if_neg hdup, if_neg hdupx]
      have happ : List.Forall₂ voteSim
          (((w.states v.block_id).getD WaveState.default).votes ++ [v])
          (((x.states v.block_id).getD WaveState.default).votes ++ [u]) :=
        List.rel_append hv2
          (List.Forall₂.cons ⟨hbid, htype, hvoter⟩ List.Forall₂.nil)
      by_cases hpv : v.prefer = true
      · rw [if_pos hpv, if_pos hpv]
        apply check_consensus_sim
        refine ⟨hc, hf, hp,
          mapInsert_optRel (mapInsert_optRel hs v.block_id
            ⟨hv2, hy2, hn2, hpref2, hconf2, hdec2, hdecis2⟩) v.block_id ?_⟩
        exact ⟨happ, by dsimp only; rw [hy2], hn2, hpref2, hconf2, hdec2, hdecis2⟩
      · rw [if_neg hpv, if_neg hpv]
        apply check_consensus_sim
        refine ⟨hc, hf, hp,
          mapInsert_optRel (mapInsert_optRel hs v.block_id
            ⟨hv2, hy2, hn2, hpref2, hconf2, hdec2, hdecis2⟩) v.block_id ?_⟩
        exact ⟨happ, hy2, by dsimp only; rw [hn2], hpref2, hconf2, hdec2, hdecis2⟩

/-- Similar certifiers fed with similar votes end up similar (certificate
creation depends only on voters, lengths and the validator map). -/
theorem create_certificate_sim_state {q r : QuasarConsensus} (h : quasarSim q r)
    (bid ht : Nat) {vs1 vs2 : List Vote} (hv : List.Forall₂ voteSim vs1 vs2) :
    quasarSim (q.create_certificate bid ht vs1).2 (r.create_certificate bid ht vs2).2 := by
  obtain ⟨hval, hth, hsec, hfin⟩ := h
  have hlen : vs1.length = vs2.length := hv.length_eq
  have hsig : (vs1.filter (fun v => (q.validators v.voter).isSome)).map
        (fun v => v.voter)
      = (vs2.filter (fun v => (q.validators v.voter).isSome)).map
        (fun v => v.voter) :=
    forall2_filter_map_voter hv q.validators
  unfold QuasarConsensus.create_certificate
  rw [← hval, ← hth, ← hlen, ← hsig]
  by_cases h1 : vs1.length < q.threshold
  · rw [if_pos h1, if_pos h1]
    exact ⟨hval, hth, hsec, hfin⟩
  · rw [if_neg h1, if_neg h1]
    by_cases h2 : ((vs1.filter (fun v => (q.validators v.voter).isSome)).map
        (fun v => v.voter)).length < q.threshold
    · rw [if_pos h2, if_pos h2]
      exact ⟨hval, hth, hsec, hfin⟩
    · rw [if_neg h2, if_neg h2]
      exact ⟨rfl, rfl, hsec, mapInsert_optRel hfin bid ⟨rfl, rfl, rfl, rfl, rfl⟩⟩

/-- Unfolding equation for `accept_block`. -/
theorem accept_block_eq (e : QuasarEngine) (bid : Nat) :
    e.accept_block bid =
      (let e1 : QuasarEngine :=
        { e with status := mapInsert e.status bid Status.Accepted }
      let e2 : QuasarEngine :=
        match e.blocks bid with
        | some block =>
          if e.height < block.height then { e1 with height := block.height }
          else e1
        | none => e1
      match e.wave.states bid with
      | some state =>
        match e.blocks bid with
        | some block =>
          { e2 with
            quasar := (e2.quasar.create_certificate bid block.height state.votes).2 }
        | none => e2
      | none => e2) := by
  unfold QuasarEngine.accept_block Wave.state
  dsimp only
  cases hb : e.blocks bid with
  | none =>
    dsimp only
    cases hw : e.wave.states bid <;> simp [hw, hb]
  | some b =>
    dsimp only
    by_cases hh : e.height < b.height
    · rw [if_pos hh]
      dsimp only
      cases hw : e.wave.states bid <;> simp [hw, hb]
    · rw [if_neg hh]
      dsimp only
      cases hw : e.wave.states bid <;> simp [hw, hb]

/-- Similar Waves give the same decision for every block. -/
theorem wave_decision_sim {w x : Wave} (h : waveSim w x) (bid : Nat) :
    w.decision bid = x.decision bid := by
  have hrel := h.2.2.2 bid
  unfold Wave.decision
  cases hw1 : w.states bid with
  | none =>
    cases hx1 : x.states bid with
    | none => rfl
    | some t => rw [hw1, hx1] at hrel; exact absurd hrel (by simp [optRel])
  | some s =>
    cases hx1 : x.states bid with
    | none => rw [hw1, hx1] at hrel; exact absurd hrel (by simp [optRel])
    | some t =>
      rw [hw1, hx1] at hrel
      exact hrel.2.2.2.2.2.2

/-- Accepting the same block in similar engines keeps them similar. -/
theorem accept_block_sim {e f : QuasarEngine} (h : engineSim e f) (bid : Nat) :
    engineSim (e.accept_block bid) (f.accept_block bid) := by
  obtain ⟨hcfg, hwave, hquasar, hblocks, hstatus, hstarted, hheight⟩ := h
  obtain ⟨hwc, hwf, hwp, hws⟩ := hwave
  rw [accept_block_eq e bid, accept_block_eq f bid]
  dsimp only
  rw [← hblocks, ← hstatus, ← hheight]
  have hrel := hws bid
  have hsim1 : engineSim
      { e with status := mapInsert e.status bid Status.Accepted }
      { f with blocks := e.blocks,
               status := mapInsert e.status bid Status.Accepted,
               height := e.height } :=
    ⟨hcfg, ⟨hwc, hwf, hwp, hws⟩, hquasar, rfl, rfl, hstarted, rfl⟩
  cases hb : e.blocks bid with
  | none =>
    cases hw1 : e.wave.states bid with
    | none =>
      cases hx1 : f.wave.states bid with
      | none => dsimp only; exact hsim1
      | some t => rw [hw1, hx1] at hrel; exact absurd hrel (by simp [optRel])
    | some s =>
      cases hx1 : f.wave.states bid with
      | none => rw [hw1, hx1] at hrel; exact absurd hrel (by simp [optRel])
      | some t => dsimp only; exact hsim1
  | some b =>
    dsimp only
    by_cases hh : e.height < b.height
    · rw [if_pos hh, if_pos hh]
      have hsim2 : engineSim
          { e with status := mapInsert e.status bid Status.Accepted,
                   height := b.height }
          { f with blocks := e.blocks,
                   status := mapInsert e.status bid Status.Accepted,
                   height := b.height } :=
        ⟨hcfg, ⟨hwc, hwf, hwp, hws⟩, hquasar, rfl, rfl, hstarted, rfl⟩
      cases hw1 : e.wave.states bid with
      | none =>
        cases hx1 : f.wave.states bid with
        | none => dsimp only; exact hsim2
        | some t => rw [hw1, hx1] at hrel; exact absurd hrel (by simp [optRel])
      | some s =>
        cases hx1 : f.wave.states bid with
        | none => rw [hw1, hx1] at hrel; exact absurd hrel (by simp [optRel])
        | some t =>
          rw [hw1, hx1] at hrel
          dsimp only
          exact ⟨hcfg, ⟨hwc, hwf, hwp, hws⟩,
            create_certificate_sim_state hquasar bid b.height hrel.1,
            rfl, rfl, hstarted, rfl⟩
    · rw [if_neg hh, if_neg hh]
      cases hw1 : e.wave.states bid with
      | none =>
        cases hx1 : f.wave.states bid with
        | none => dsimp only; exact hsim1
        | some t => rw [hw1, hx1] at hrel; exact absurd hrel (by simp [optRel])
      | some s =>
        cases hx1 : f.wave.states bid with
        | none => rw [hw1, hx1] at hrel; exact absurd hrel (by simp [optRel])
        | some t =>
          rw [hw1, hx1] at hrel
          dsimp only
          exact ⟨hcfg, ⟨hwc, hwf, hwp, hws⟩,
            create_certificate_sim_state hquasar bid b.height hrel.1,
            rfl, rfl, hstarted, rfl⟩

/-- Similar engines fed with similar votes return the same result and stay
similar. -/
theorem record_vote_eng_sim {e f : QuasarEngine} {v u : Vote}
    (hvu : voteSim v u) (h : engineSim e f) :
    (e.record_vote v).1 = (f.record_vote u).1 ∧
    engineSim (e.record_vote v).2 (f.record_vote u).2 := by
  obtain ⟨hcfg, hwave, hquasar, hblocks, hstatus, hstarted, hheight⟩ := h
  obtain ⟨hbid, htype, hvoter⟩ := hvu
  obtain ⟨hflag, hwsim⟩ := record_vote_sim ⟨hbid, htype, hvoter⟩ hwave
  simp only [QuasarEngine.record_vote]
  rw [← hstarted, ← hblocks, ← hbid, ← hstatus]
  by_cases hs1 : ¬(e.started = true)
  · rw [if_pos hs1, if_pos hs1]
    exact ⟨rfl, hcfg, hwave, hquasar, hblocks, hstatus, hstarted, hheight⟩
  · rw [if_neg hs1, if_neg hs1]
    by_cases hb1 : (e.blocks v.block_id).isNone = true
    · rw [if_pos hb1, if_pos hb1]
      exact ⟨rfl, hcfg, hwave, hquasar, hblocks, hstatus, hstarted, hheight⟩
    · rw [if_neg hb1, if_neg hb1]
      rw [← hflag]
      by_cases hd1 : (e.wave.record_vote v).1 = true
      · rw [if_pos hd1, if_pos hd1]
        have hdec := wave_decision_sim hwsim v.block_id
        rw [← hdec]
        cases hdc : (e.wave.record_vote v).2.decision v.block_id with
        | Accept =>
          refine ⟨rfl, ?_⟩
          exact accept_block_sim
            (e := { config := e.config, wave := (e.wave.record_vote v).2,
                    quasar := e.quasar, blocks := e.blocks, status := e.status,
                    started := e.started, height := e.height })
            (f := { config := f.config, wave := (f.wave.record_vote u).2,
                    quasar := f.quasar, blocks := e.blocks, status := e.status,
                    started := e.started, height := f.height })
            ⟨hcfg, hwsim, hquasar, rfl, rfl, rfl, hheight⟩ v.block_id
        | Reject =>
          exact ⟨rfl, hcfg, hwsim, hquasar, rfl, rfl, rfl, hheight⟩
        | Undecided =>
          exact ⟨rfl, hcfg, hwsim, hquasar, rfl, rfl, rfl, hheight⟩
      · rw [if_neg hd1, if_neg hd1]
        exact ⟨rfl, hcfg, hwsim, hquasar, rfl, rfl, rfl, hheight⟩

/-- Adding the same block to similar engines keeps them similar. -/
theorem add_sim {e f : QuasarEngine} (h : engineSim e f) (b : Block) :
    (e.add b).1 = (f.add b).1 ∧ engineSim (e.add b).2 (f.add b).2 := by
  obtain ⟨hcfg, hwave, hquasar, hblocks, hstatus, hstarted, hheight⟩ := h
  unfold QuasarEngine.add
  rw [← hstarted, ← hblocks, ← hstatus]
  by_cases hs1 : ¬(e.started = true)
  · rw [if_pos hs1, if_pos hs1]
    exact ⟨rfl, hcfg, hwave, hquasar, hblocks, hstatus, hstarted, hheight⟩
  · rw [if_neg hs1, if_neg hs1]
    dsimp only
    refine ⟨rfl, hcfg, ?_, hquasar, rfl, rfl, rfl, hheight⟩
    obtain ⟨hwc, hwf, hwp, hws⟩ := hwave
    have hrel := hws b.id
    unfold Wave.get_or_create_state
    cases hw1 : e.wave.states b.id with
    | none =>
      cases hx1 : f.wave.states b.id with
      | none =>
        exact ⟨hwc, hwf, hwp, mapInsert_optRel hws b.id wsSim_default⟩
      | some t => rw [hw1, hx1] at hrel; exact absurd hrel (by simp [optRel])
    | some s =>
      cases hx1 : f.wave.states b.id with
      | none => rw [hw1, hx1] at hrel; exact absurd hrel (by simp [optRel])
      | some t => exact ⟨hwc, hwf, hwp, hws⟩

/-- Starting similar engines keeps them similar. -/
theorem start_sim {e f : QuasarEngine} (h : engineSim e f) :
    engineSim (e.start).2 (f.start).2 := by
  obtain ⟨hcfg, hwave, hquasar, hblocks, hstatus, hstarted, hheight⟩ := h
  unfold QuasarEngine.start
  rw [← hstarted, ← hblocks, ← hstatus]
  by_cases hs1 : e.started = true
  · rw [if_pos hs1, if_pos hs1]
    exact ⟨hcfg, hwave, hquasar, hblocks, hstatus, hstarted, hheight⟩
  · rw [if_neg hs1, if_neg hs1]
    exact ⟨hcfg, hwave, hquasar, rfl, rfl, rfl, hheight⟩

/-- Stopping similar engines keeps them similar. -/
theorem stop_sim {e f : QuasarEngine} (h : engineSim e f) :
    engineSim (e.stop).2 (f.stop).2 := by
  obtain ⟨hcfg, hwave, hquasar, hblocks, hstatus, hstarted, hheight⟩ := h
  exact ⟨hcfg, hwave, hquasar, hblocks, hstatus, rfl, hheight⟩

/-- Registering the same validator on similar engines keeps them
similar. -/
theorem add_validator_sim {e f : QuasarEngine} (h : engineSim e f)
    (id weight : Nat) :
    engineSim (e.add_validator id weight) (f.add_validator id weight) := by
  obtain ⟨hcfg, hwave, hquasar, hblocks, hstatus, hstarted, hheight⟩ := h
  obtain ⟨hval, hth, hsec, hfin⟩ := hquasar
  refine ⟨hcfg, hwave, ⟨?_, hth, hsec, hfin⟩, hblocks, hstatus, hstarted,
    hheight⟩
  unfold QuasarEngine.add_validator QuasarConsensus.add_validator
  dsimp only
  rw [hval]

/-- Batched ingestion of pointwise-similar vote lists keeps similar
engines similar. -/
theorem batch_sim {e f : QuasarEngine} (h : engineSim e f)
    {vs1 vs2 : List Vote} (hv : List.Forall₂ voteSim vs1 vs2) :
    engineSim (e.record_votes_batch vs1).2 (f.record_votes_batch vs2).2 := by
  unfold QuasarEngine.record_votes_batch
  have haux : ∀ {vs1 vs2 : List Vote}, List.Forall₂ voteSim vs1 vs2 →
      ∀ (p q : Nat × QuasarEngine), engineSim p.2 q.2 →
      engineSim
        (vs1.foldl (fun acc vote =>
          let re := acc.2.record_vote vote
          (acc.1 + (match re.1 with | Except.ok _ => 1 | Except.error _ => 0),
           re.2)) p).2
        (vs2.foldl (fun acc vote =>
          let re := acc.2.record_vote vote
          (acc.1 + (match re.1 with | Except.ok _ => 1 | Except.error _ => 0),
           re.2)) q).2 := by
    intro vs1 vs2 hv
    induction hv with
    | nil => intro p q hpq; exact hpq
    | @cons a b t1 t2 hab _ ih =>
      intro p q hpq
      exact ih _ _ (record_vote_eng_sim hab hpq).2
  exact haux hv (0, e) (0, f) h

/-- One step of similar operations on similar engines keeps them
similar. -/
theorem step_sim {e f : QuasarEngine} (h : engineSim e f) :
    ∀ {o1 o2 : Op}, opSim o1 o2 → engineSim (stepOp e o1) (stepOp f o2) := by
  intro o1 o2 ho
  cases o1 <;> cases o2 <;> try exact False.elim ho
  case start.start => exact start_sim h
  case stop.stop => exact stop_sim h
  case addValidator.addValidator i w j x =>
    obtain ⟨hi, hw⟩ := ho
    subst hi; subst hw
    exact add_validator_sim h i w
  case add.add b c =>
    obtain rfl : b = c := ho
    exact (add_sim h b).2
  case recordVote.recordVote v u => exact (record_vote_eng_sim ho h).2
  case recordBatch.recordBatch vs1 vs2 => exact batch_sim h ho

/-- Running pointwise-similar operation lists on similar engines keeps
them similar. -/
theorem run_sim {e f : QuasarEngine} (h : engineSim e f)
    {ops1 ops2 : List Op} (hops : List.Forall₂ opSim ops1 ops2) :
    engineSim (runOps e ops1) (runOps f ops2) := by
  induction hops generalizing e f with
  | nil => exact h
  | @cons o1 o2 t1 t2 ho _ ih => exact ih (step_sim h ho)

/-- C9: two engine runs from the same configuration that receive
operation sequences identical except that corresponding votes may differ
in signature and timestamp produce identical `get_status` and
`is_accepted` answers for every id, identical height watermarks, and
identical Wave decisions for every block. -/
theorem c9_signature_timestamp_oblivious (cfg : QuasarConfig)
    {ops1 ops2 : List Op} (h : List.Forall₂ opSim ops1 ops2) :
    (∀ id, (runOps (QuasarEngine.new cfg) ops1).get_status id
        = (runOps (QuasarEngine.new cfg) ops2).get_status id) ∧
    (∀ id, (runOps (QuasarEngine.new cfg) ops1).is_accepted id
        = (runOps (QuasarEngine.new cfg) ops2).is_accepted id) ∧
    (runOps (QuasarEngine.new cfg) ops1).height
      = (runOps (QuasarEngine.new cfg) ops2).height ∧
    (∀ id, (runOps (QuasarEngine.new cfg) ops1).wave.decision id
        = (runOps (QuasarEngine.new cfg) ops2).wave.decision id) := by
  have hsim := run_sim (engineSim_new cfg) h
  obtain ⟨hcfg, hwave, hquasar, hblocks, hstatus, hstarted, hheight⟩ := hsim
  refine ⟨?_, ?_, hheight, fun id => wave_decision_sim hwave id⟩
  · intro id
    unfold QuasarEngine.get_status
    rw [hstatus]
  · intro id
    unfold QuasarEngine.is_accepted
    rw [hstatus]

/-- Witness for C9: two concrete testnet runs whose only difference is
the signature and timestamp of one vote end with equal height
watermarks. -/
theorem c9_signature_timestamp_oblivious_witness :
    List.Forall₂ opSim c9Ops1 c9Ops2 ∧
    (runOps (QuasarEngine.new QuasarConfig.testnet) c9Ops1).height
      = (runOps (QuasarEngine.new QuasarConfig.testnet) c9Ops2).height := by
  have hsim : List.Forall₂ opSim c9Ops1 c9Ops2 := by
    unfold c9Ops1 c9Ops2 c9Vote1 c9Vote2 mkVote
    refine List.Forall₂.cons ?_ (List.Forall₂.cons ?_
      (List.Forall₂.cons ?_ List.Forall₂.nil)) <;>
      simp [opSim, voteSim]
  exact ⟨hsim,
    (c9_signature_timestamp_oblivious QuasarConfig.testnet hsim).2.2.1⟩

/-- Witness for C10: re-adding block 1 to the concrete engine
`c10Engine` (status Accepted, Wave state decided) and then voting again
leaves the vote uncounted and the status `Processing`. -/
theorem c10_readd_decided_block_witness :
    ((c10Engine.add c1Block).2.record_vote (mkVote 1 99 VoteType.Cancel)).1
      = Except.ok () ∧
    ((c10Engine.add c1Block).2.record_vote
        (mkVote 1 99 VoteType.Cancel)).2.wave.states 1
      = some decidedAcceptState ∧
    ((c10Engine.add c1Block).2.record_vote
        (mkVote 1 99 VoteType.Cancel)).2.get_status 1
      = Status.Processing :=
  (c10_readd_decided_block c10Engine c1Block rfl (Or.inl rfl)).2.2.2.2
    decidedAcceptState (mkVote 1 99 VoteType.Cancel) rfl rfl rfl

end Quasar
